import Mathlib

/-!
# AXI-DMA accelerator self-test (`sw/src/main.c`)

A shallow embedding of `main` from `sw/src/main.c`.  The program is a single
sequential function that talks to a DMA driver, to the cache-maintenance
primitives and to a console.  The embedding threads an explicit state through
the function: the CPU-visible memory (byte addressed, little endian 32-bit
accesses), the state of the driver/engine, and the chronological trace of every
external call and of every load and store that the program performs.

The driver is a parameter: its answers (configuration pointer, status codes,
busy flags) and its effect on memory (the data that the engine moves) are
arbitrary functions of an arbitrary driver state.
-/

namespace AxiDmaTest

/-! ## Constants of `main.c` -/

/-- Line 13: `#define TX_BUFFER_BASE 0x00A00000`. -/
def TX_BUFFER_BASE : Nat := 0x00A00000

/-- Line 14: `#define RX_BUFFER_BASE 0x00B00000`. -/
def RX_BUFFER_BASE : Nat := 0x00B00000

/-- Line 18: `#define TEST_LENGTH 128` (bytes). -/
def TEST_LENGTH : Nat := 128

/-- The two channel selectors `XAXIDMA_DMA_TO_DEVICE` and `XAXIDMA_DEVICE_TO_DMA`
passed to the driver; they are kept symbolic. -/
inductive Dir where
  | XAXIDMA_DMA_TO_DEVICE
  | XAXIDMA_DEVICE_TO_DMA
  deriving DecidableEq, Repr

/-! ## Memory -/

/-- CPU-visible memory: one byte per address (only the value modulo 256 of a
cell is ever observed). -/
abbrev Mem := Nat → Nat

/-- A 32-bit little-endian load, as performed by `TxBufferPtr[i]` on a `u32 *`. -/
def read32 (m : Mem) (a : Nat) : Nat :=
  m a % 256 + 256 * (m (a + 1) % 256) + 65536 * (m (a + 2) % 256)
    + 16777216 * (m (a + 3) % 256)

/-- A 32-bit little-endian store; the value is truncated to 32 bits. -/
def write32 (m : Mem) (a v : Nat) : Mem := fun x =>
  if x = a then v % 256
  else if x = a + 1 then v / 256 % 256
  else if x = a + 2 then v / 65536 % 256
  else if x = a + 3 then v / 16777216 % 256
  else m x

/-- The C operator `~` on a `u32` value: every one of the 32 bits is flipped. -/
def not32 (x : Nat) : Nat := x ^^^ 0xFFFFFFFF

/-- The word `TxBufferPtr[i]` of a memory. -/
def txWord (m : Mem) (i : Nat) : Nat := read32 m (TX_BUFFER_BASE + 4 * i)

/-- The word `RxBufferPtr[i]` of a memory. -/
def rxWord (m : Mem) (i : Nat) : Nat := read32 m (RX_BUFFER_BASE + 4 * i)

/-! ## Events and the driver -/

/-- One observable step of the program: an external call with its arguments and
its result, or a load/store of the program itself. -/
inductive Event where
  | init_platform
  | cleanup_platform
  | print (s : String)
  | xil_printf (fmt : String) (args : List Nat)
  | XAxiDma_LookupConfig (devId : Nat) (cfgPtr : Nat)
  | XAxiDma_CfgInitialize (cfgPtr : Nat) (status : Int)
  | XAxiDma_IntrDisable (mask : Nat) (dir : Dir)
  | Xil_DCacheFlushRange (addr : Nat) (len : Nat)
  | XAxiDma_SimpleTransfer (addr : Nat) (len : Nat) (dir : Dir) (status : Int)
  | XAxiDma_Busy (dir : Dir) (res : Nat)
  | Xil_DCacheInvalidateRange (addr : Nat) (len : Nat)
  | store (addr : Nat) (val : Nat)
  | load (addr : Nat) (val : Nat)
  deriving DecidableEq

/-- The driver, the cache primitives and the constants of the vendor headers
(`xstatus.h`, `xparameters.h`, `xaxidma_hw.h`), none of which is part of
`main.c`; they are parameters of the embedding.  `σ` is the state of the
engine and of whatever else the platform keeps.  A configuration pointer is a
number, `0` being `NULL`; a status is an `int`; `XAxiDma_Busy` returns a `u32`
that the program tests against zero.

Memory is changed by the stores of the program and by the engine.  What the
engine does to memory becomes observable to the program only through later
loads, so the engine acts on memory at the calls `XAxiDma_SimpleTransfer`,
`XAxiDma_Busy` and `Xil_DCacheInvalidateRange` (the calls made once a transfer
may be in flight); a flush reads memory.  The lookup, the initialisation and
the console do not touch the buffers. -/
structure Driver (σ : Type) where
  XST_SUCCESS : Int
  XST_FAILURE : Int
  XPAR_AXI_DMA_0_DEVICE_ID : Nat
  XAXIDMA_IRQ_ALL_MASK : Nat
  XAxiDma_LookupConfig : Nat → σ → Nat × σ
  XAxiDma_CfgInitialize : Nat → σ → Int × σ
  XAxiDma_IntrDisable : Nat → Dir → σ → σ
  Xil_DCacheFlushRange : Nat → Nat → σ → Mem → σ
  XAxiDma_SimpleTransfer : Nat → Nat → Dir → σ → Mem → Int × σ × Mem
  XAxiDma_Busy : Dir → σ → Mem → Nat × σ × Mem
  Xil_DCacheInvalidateRange : Nat → Nat → σ → Mem → σ × Mem

/-- Line 9: `#define DMA_DEV_ID XPAR_AXI_DMA_0_DEVICE_ID`. -/
def DMA_DEV_ID {σ : Type} (D : Driver σ) : Nat := D.XPAR_AXI_DMA_0_DEVICE_ID

/-- The state threaded through `main`. -/
structure State (σ : Type) where
  drv : σ
  mem : Mem
  trace : List Event

variable {σ : Type}

/-- Append an event to the trace. -/
def emit (e : Event) (s : State σ) : State σ :=
  { s with trace := s.trace ++ [e] }

/-- A store `p[i] = v` of the program. -/
def store32 (a v : Nat) (s : State σ) : State σ :=
  { s with mem := write32 s.mem a v, trace := s.trace ++ [Event.store a v] }

/-- A load `p[i]` of the program. -/
def load32 (a : Nat) (s : State σ) : Nat × State σ :=
  (read32 s.mem a, { s with trace := s.trace ++ [Event.load a (read32 s.mem a)] })

/-- Call `XAxiDma_LookupConfig`. -/
def callLookupConfig (D : Driver σ) (devId : Nat) (s : State σ) : Nat × State σ :=
  let r := D.XAxiDma_LookupConfig devId s.drv
  (r.1, { s with drv := r.2, trace := s.trace ++ [Event.XAxiDma_LookupConfig devId r.1] })

/-- Call `XAxiDma_CfgInitialize`. -/
def callCfgInitialize (D : Driver σ) (cfgPtr : Nat) (s : State σ) : Int × State σ :=
  let r := D.XAxiDma_CfgInitialize cfgPtr s.drv
  (r.1, { s with drv := r.2, trace := s.trace ++ [Event.XAxiDma_CfgInitialize cfgPtr r.1] })

/-- Call `XAxiDma_IntrDisable`. -/
def callIntrDisable (D : Driver σ) (mask : Nat) (d : Dir) (s : State σ) : State σ :=
  { s with drv := D.XAxiDma_IntrDisable mask d s.drv,
           trace := s.trace ++ [Event.XAxiDma_IntrDisable mask d] }

/-- Call `Xil_DCacheFlushRange`. -/
def callFlushRange (D : Driver σ) (a len : Nat) (s : State σ) : State σ :=
  { s with drv := D.Xil_DCacheFlushRange a len s.drv s.mem,
           trace := s.trace ++ [Event.Xil_DCacheFlushRange a len] }

/-- Call `XAxiDma_SimpleTransfer`. -/
def callSimpleTransfer (D : Driver σ) (a len : Nat) (d : Dir) (s : State σ) :
    Int × State σ :=
  let r := D.XAxiDma_SimpleTransfer a len d s.drv s.mem
  (r.1, { drv := r.2.1, mem := r.2.2,
          trace := s.trace ++ [Event.XAxiDma_SimpleTransfer a len d r.1] })

/-- Call `XAxiDma_Busy`. -/
def callBusy (D : Driver σ) (d : Dir) (s : State σ) : Nat × State σ :=
  let r := D.XAxiDma_Busy d s.drv s.mem
  (r.1, { drv := r.2.1, mem := r.2.2, trace := s.trace ++ [Event.XAxiDma_Busy d r.1] })

/-- Call `Xil_DCacheInvalidateRange`. -/
def callInvalidateRange (D : Driver σ) (a len : Nat) (s : State σ) : State σ :=
  let r := D.Xil_DCacheInvalidateRange a len s.drv s.mem
  { drv := r.1, mem := r.2, trace := s.trace ++ [Event.Xil_DCacheInvalidateRange a len] }

/-! ## The messages of `main.c` -/

def msgStart : String := "\n--- START AXI-STREAM ACCELERATOR TEST ---\n\r"
def msgInit : String := "DMA Initialization...\n\r"
def msgConfigNotFound : String := "Error: DMA configuration not found\r\n"
def msgInitFailed : String := "Error: DMA initialization failed\r\n"
def msgFilling : String := "Filling the TX buffer...\n\r"
def msgLaunched : String := "DMA transfer launched...\n\r"
def msgRxFailed : String := "Error: RX launch failed\r\n"
def msgTxFailed : String := "Error: TX launch failed\r\n"
def msgComplete : String := "Transfer complete. Verification...\n\r"
def msgMismatch : String :=
  "Error at index %d: Sent 0x%08x, Received 0x%08x, Expected 0x%08x\r\n"
def msgSuccess : String :=
  "\n--- SUCCESS: The accelerator reversed the data correctly! ---\n\r"
def msgFailure : String := "\n--- FAILURE: Errors have been detected ---\n\r"

/-! ## The three loops -/

/-- Body of the fill loop (lines 54-55). -/
def fillBody (s : State σ) (i : Nat) : State σ :=
  store32 (RX_BUFFER_BASE + 4 * i) 0 (store32 (TX_BUFFER_BASE + 4 * i) i s)

/-- Lines 53-56: `for (int i = 0; i < TEST_LENGTH/4; i++)`. -/
def fillLoop (s : State σ) : State σ :=
  (List.range (TEST_LENGTH / 4)).foldl fillBody s

/-- Lines 85-88: the polling loop.  Each iteration samples the send channel
and, only if that one is idle, the receive channel (`||` short-circuits).  The
loop is unbounded in the source; `budget` bounds the number of iterations that
are observed, and the flag tells whether the loop was left. -/
def pollLoop (D : Driver σ) : Nat → State σ → State σ × Bool
  | 0, s => (s, false)
  | budget + 1, s =>
    let r1 := callBusy D Dir.XAXIDMA_DMA_TO_DEVICE s
    if r1.1 ≠ 0 then pollLoop D budget r1.2
    else
      let r2 := callBusy D Dir.XAXIDMA_DEVICE_TO_DMA r1.2
      if r2.1 ≠ 0 then pollLoop D budget r2.2
      else (r2.2, true)

/-- Body of the comparison loop (lines 100-108); the second component is
`error_count`. -/
def compareBody (acc : State σ × Nat) (i : Nat) : State σ × Nat :=
  let sent := load32 (TX_BUFFER_BASE + 4 * i) acc.1
  let received := load32 (RX_BUFFER_BASE + 4 * i) sent.2
  let expected := not32 sent.1
  if received.1 ≠ expected then
    (emit (Event.xil_printf msgMismatch [i, sent.1, received.1, expected]) received.2,
      acc.2 + 1)
  else (received.2, acc.2)

/-- Lines 98-109: `int error_count = 0; for (int i = 0; i < TEST_LENGTH/4; i++)`. -/
def compareLoop (s : State σ) : State σ × Nat :=
  (List.range (TEST_LENGTH / 4)).foldl compareBody (s, 0)

/-! ## `main` -/

/-- What is observed of a run: the final state, the value returned by `main`
(`none` while the polling loop is still running) and the final value of the
local `error_count` once the comparison loop has run. -/
structure Outcome (σ : Type) where
  final : State σ
  ret : Option Int
  error_count : Option Nat

/-- Lines 22-119.  `budget` bounds the number of iterations of the polling loop
that are observed (the loop itself is unbounded); the run starts with an empty
trace in driver state `drv0` and memory `mem0`. -/
def main (D : Driver σ) (budget : Nat) (drv0 : σ) (mem0 : Mem) : Outcome σ :=
  let s : State σ := { drv := drv0, mem := mem0, trace := [] }
  -- lines 24-25
  let s := emit Event.init_platform s
  let s := emit (Event.print msgStart) s
  -- lines 31-36
  let s := emit (Event.print msgInit) s
  let CfgPtr := callLookupConfig D (DMA_DEV_ID D) s
  if CfgPtr.1 = 0 then
    { final := emit (Event.print msgConfigNotFound) CfgPtr.2,
      ret := some D.XST_FAILURE, error_count := none }
  else
    -- lines 38-42
    let Status := callCfgInitialize D CfgPtr.1 CfgPtr.2
    if Status.1 ≠ D.XST_SUCCESS then
      { final := emit (Event.print msgInitFailed) Status.2,
        ret := some D.XST_FAILURE, error_count := none }
    else
      -- lines 45-46
      let s := callIntrDisable D D.XAXIDMA_IRQ_ALL_MASK Dir.XAXIDMA_DEVICE_TO_DMA Status.2
      let s := callIntrDisable D D.XAXIDMA_IRQ_ALL_MASK Dir.XAXIDMA_DMA_TO_DEVICE s
      -- lines 52-56
      let s := emit (Event.print msgFilling) s
      let s := fillLoop s
      -- lines 61-64
      let s := callFlushRange D TX_BUFFER_BASE TEST_LENGTH s
      let s := callFlushRange D RX_BUFFER_BASE TEST_LENGTH s
      let s := emit (Event.print msgLaunched) s
      -- lines 68-73
      let StatusRx :=
        callSimpleTransfer D RX_BUFFER_BASE TEST_LENGTH Dir.XAXIDMA_DEVICE_TO_DMA s
      if StatusRx.1 ≠ D.XST_SUCCESS then
        { final := emit (Event.print msgRxFailed) StatusRx.2,
          ret := some D.XST_FAILURE, error_count := none }
      else
        -- lines 76-81
        let StatusTx := callSimpleTransfer D TX_BUFFER_BASE TEST_LENGTH
          Dir.XAXIDMA_DMA_TO_DEVICE StatusRx.2
        if StatusTx.1 ≠ D.XST_SUCCESS then
          { final := emit (Event.print msgTxFailed) StatusTx.2,
            ret := some D.XST_FAILURE, error_count := none }
        else
          -- lines 85-88
          let p := pollLoop D budget StatusTx.2
          if p.2 = false then
            { final := p.1, ret := none, error_count := none }
          else
            -- lines 90-95
            let s := emit (Event.print msgComplete) p.1
            let s := callInvalidateRange D RX_BUFFER_BASE TEST_LENGTH s
            -- lines 98-109
            let c := compareLoop s
            -- lines 111-118
            let s :=
              if c.2 = 0 then emit (Event.print msgSuccess) c.1
              else emit (Event.print msgFailure) c.1
            let s := emit Event.cleanup_platform s
            { final := s, ret := some 0, error_count := some c.2 }

/-! ## Vocabulary for the statements -/

/-- The stores of the first `n` iterations of the fill loop, in program order. -/
def fillEventsUpTo (n : Nat) : List Event :=
  (List.range n).flatMap fun i =>
    [Event.store (TX_BUFFER_BASE + 4 * i) i, Event.store (RX_BUFFER_BASE + 4 * i) 0]

/-- The 64 stores of the fill loop, in program order. -/
def fillEvents : List Event := fillEventsUpTo (TEST_LENGTH / 4)

/-- Index `i` is a mismatch in memory `m`: `RxBufferPtr[i] != ~TxBufferPtr[i]`. -/
def mismatch (m : Mem) (i : Nat) : Bool := decide (rxWord m i ≠ not32 (txWord m i))

/-- The diagnostic record printed for index `i` in memory `m`. -/
def mismatchRecord (m : Mem) (i : Nat) : Event :=
  Event.xil_printf msgMismatch [i, txWord m i, rxWord m i, not32 (txWord m i)]

/-- The two loads of iteration `i` of the comparison loop in memory `m`. -/
def compareLoads (m : Mem) (i : Nat) : List Event :=
  [Event.load (TX_BUFFER_BASE + 4 * i) (txWord m i),
   Event.load (RX_BUFFER_BASE + 4 * i) (rxWord m i)]

/-- The events of iteration `i` of the comparison loop in memory `m`. -/
def compareEventsAt (m : Mem) (i : Nat) : List Event :=
  compareLoads m i ++ (if mismatch m i then [mismatchRecord m i] else [])

/-- The events of the whole comparison loop in memory `m`. -/
def compareEvents (m : Mem) : List Event :=
  (List.range (TEST_LENGTH / 4)).flatMap (compareEventsAt m)

/-- The indices that mismatch in memory `m`, in increasing order. -/
def mismatchIndices (m : Mem) : List Nat :=
  (List.range (TEST_LENGTH / 4)).filter (mismatch m)

/-- The events of one iteration of the polling loop that does not leave the
loop: the send channel is busy, or it is idle and the receive channel is busy. -/
def BusyIteration (it : List Event) : Prop :=
  (∃ b, b ≠ 0 ∧ it = [Event.XAxiDma_Busy Dir.XAXIDMA_DMA_TO_DEVICE b]) ∨
  (∃ b, b ≠ 0 ∧ it = [Event.XAxiDma_Busy Dir.XAXIDMA_DMA_TO_DEVICE 0,
                      Event.XAxiDma_Busy Dir.XAXIDMA_DEVICE_TO_DMA b])

/-- The events of the iteration of the polling loop that leaves it. -/
def idleIteration : List Event :=
  [Event.XAxiDma_Busy Dir.XAXIDMA_DMA_TO_DEVICE 0,
   Event.XAxiDma_Busy Dir.XAXIDMA_DEVICE_TO_DMA 0]

def Event.isStore : Event → Bool
  | Event.store _ _ => true
  | _ => false

def Event.isLoad : Event → Bool
  | Event.load _ _ => true
  | _ => false

def Event.isFlush : Event → Bool
  | Event.Xil_DCacheFlushRange _ _ => true
  | _ => false

def Event.isInvalidate : Event → Bool
  | Event.Xil_DCacheInvalidateRange _ _ => true
  | _ => false

def Event.isLaunch : Event → Bool
  | Event.XAxiDma_SimpleTransfer _ _ _ _ => true
  | _ => false

/-- A launch on channel `d`. -/
def Event.isLaunchOn (d : Dir) : Event → Bool
  | Event.XAxiDma_SimpleTransfer _ _ d' _ => decide (d' = d)
  | _ => false

def Event.isBusy : Event → Bool
  | Event.XAxiDma_Busy _ _ => true
  | _ => false

def Event.isPrintf : Event → Bool
  | Event.xil_printf _ _ => true
  | _ => false

def Event.isLookup : Event → Bool
  | Event.XAxiDma_LookupConfig _ _ => true
  | _ => false

def Event.isCfgInitialize : Event → Bool
  | Event.XAxiDma_CfgInitialize _ _ => true
  | _ => false

/-- The call `Xil_DCacheFlushRange(TX_BUFFER_BASE, 128)`. -/
def flushTx : Event := Event.Xil_DCacheFlushRange TX_BUFFER_BASE 128

/-- The call `Xil_DCacheFlushRange(RX_BUFFER_BASE, 128)`. -/
def flushRx : Event := Event.Xil_DCacheFlushRange RX_BUFFER_BASE 128

/-- The call `Xil_DCacheInvalidateRange(RX_BUFFER_BASE, 128)`. -/
def invalidateRx : Event := Event.Xil_DCacheInvalidateRange RX_BUFFER_BASE 128

/-- The receive launch with its status. -/
def launchRx (status : Int) : Event :=
  Event.XAxiDma_SimpleTransfer RX_BUFFER_BASE 128 Dir.XAXIDMA_DEVICE_TO_DMA status

/-- The send launch with its status. -/
def launchTx (status : Int) : Event :=
  Event.XAxiDma_SimpleTransfer TX_BUFFER_BASE 128 Dir.XAXIDMA_DMA_TO_DEVICE status

/-- The events of lines 24-32, with the pointer returned by the lookup. -/
def lookupEvents (D : Driver σ) (cfgPtr : Nat) : List Event :=
  [Event.init_platform, Event.print msgStart, Event.print msgInit,
   Event.XAxiDma_LookupConfig (DMA_DEV_ID D) cfgPtr]

/-- The events of lines 24-64 of a run whose initialisation succeeded. -/
def prepEvents (D : Driver σ) (cfgPtr : Nat) : List Event :=
  lookupEvents D cfgPtr ++
  [Event.XAxiDma_CfgInitialize cfgPtr D.XST_SUCCESS,
   Event.XAxiDma_IntrDisable D.XAXIDMA_IRQ_ALL_MASK Dir.XAXIDMA_DEVICE_TO_DMA,
   Event.XAxiDma_IntrDisable D.XAXIDMA_IRQ_ALL_MASK Dir.XAXIDMA_DMA_TO_DEVICE,
   Event.print msgFilling] ++ fillEvents ++ [flushTx, flushRx, Event.print msgLaunched]

/-- The line that closes the verification of memory `m`. -/
def verdict (m : Mem) : Event :=
  if (mismatchIndices m).length = 0 then Event.print msgSuccess else Event.print msgFailure

/-- The driver calls whose result decides how the run goes on: the lookup, the
initialisation and the two launches. -/
def Event.isCall : Event → Bool
  | Event.XAxiDma_LookupConfig _ _ => true
  | Event.XAxiDma_CfgInitialize _ _ => true
  | Event.XAxiDma_SimpleTransfer _ _ _ _ => true
  | _ => false

/-- The events that can occur before the driver is initialised. -/
def Event.isEarly : Event → Bool
  | Event.init_platform => true
  | Event.print _ => true
  | Event.XAxiDma_LookupConfig _ _ => true
  | Event.XAxiDma_CfgInitialize _ _ => true
  | _ => false

/-- The events that can occur once both ranges are flushed. -/
def Event.isLate : Event → Bool
  | Event.print _ => true
  | Event.XAxiDma_SimpleTransfer _ _ _ _ => true
  | Event.XAxiDma_Busy _ _ => true
  | Event.Xil_DCacheInvalidateRange _ _ => true
  | Event.load _ _ => true
  | Event.xil_printf _ _ => true
  | Event.cleanup_platform => true
  | _ => false

/-- The events of lines 24-56 of a run whose initialisation succeeded: everything
up to and including the fill loop. -/
def filledEvents (D : Driver σ) (cfgPtr : Nat) : List Event :=
  lookupEvents D cfgPtr ++
  [Event.XAxiDma_CfgInitialize cfgPtr D.XST_SUCCESS,
   Event.XAxiDma_IntrDisable D.XAXIDMA_IRQ_ALL_MASK Dir.XAXIDMA_DEVICE_TO_DMA,
   Event.XAxiDma_IntrDisable D.XAXIDMA_IRQ_ALL_MASK Dir.XAXIDMA_DMA_TO_DEVICE,
   Event.print msgFilling] ++ fillEvents

/-- The six ways in which a run of `main` can go. -/
inductive RunShape (D : Driver σ) (mem0 : Mem) (o : Outcome σ) : Prop where
  | configNotFound
      (ht : o.final.trace = lookupEvents D 0 ++ [Event.print msgConfigNotFound])
      (hr : o.ret = some D.XST_FAILURE) (he : o.error_count = none)
      (hm : o.final.mem = mem0)
  | initFailed (c : Nat) (st : Int) (hc : c ≠ 0) (hst : st ≠ D.XST_SUCCESS)
      (ht : o.final.trace = lookupEvents D c ++
        [Event.XAxiDma_CfgInitialize c st, Event.print msgInitFailed])
      (hr : o.ret = some D.XST_FAILURE) (he : o.error_count = none)
      (hm : o.final.mem = mem0)
  | rxFailed (c : Nat) (st : Int) (hc : c ≠ 0) (hst : st ≠ D.XST_SUCCESS)
      (ht : o.final.trace = prepEvents D c ++ [launchRx st, Event.print msgRxFailed])
      (hr : o.ret = some D.XST_FAILURE) (he : o.error_count = none)
  | txFailed (c : Nat) (st : Int) (hc : c ≠ 0) (hst : st ≠ D.XST_SUCCESS)
      (ht : o.final.trace = prepEvents D c ++
        [launchRx D.XST_SUCCESS, launchTx st, Event.print msgTxFailed])
      (hr : o.ret = some D.XST_FAILURE) (he : o.error_count = none)
  | polling (c : Nat) (its : List (List Event)) (hc : c ≠ 0)
      (hits : ∀ it ∈ its, BusyIteration it)
      (ht : o.final.trace = prepEvents D c ++
        [launchRx D.XST_SUCCESS, launchTx D.XST_SUCCESS] ++ its.flatten)
      (hr : o.ret = none) (he : o.error_count = none)
  | verified (c : Nat) (its : List (List Event)) (hc : c ≠ 0)
      (hits : ∀ it ∈ its, BusyIteration it)
      (ht : o.final.trace = prepEvents D c ++
        [launchRx D.XST_SUCCESS, launchTx D.XST_SUCCESS] ++ its.flatten ++ idleIteration ++
        [Event.print msgComplete, invalidateRx] ++ compareEvents o.final.mem ++
        [verdict o.final.mem, Event.cleanup_platform])
      (hr : o.ret = some 0)
      (he : o.error_count = some (mismatchIndices o.final.mem).length)


/-! ## Concrete drivers -/

/-- A concrete driver, with the values of the vendor headers for the constants.
The lookup returns `cfg`, the initialisation `initSt`, the receive launch `rxSt`
and the send launch `txSt`.  The driver state counts the polls that still
answer busy: a busy channel answers `1` and the count goes down.  The data
moved by the engine, `xfer`, becomes visible to the CPU at the invalidate. -/
def testDriver (cfg : Nat) (initSt rxSt txSt : Int) (xfer : Mem → Mem) : Driver Nat where
  XST_SUCCESS := 0
  XST_FAILURE := 1
  XPAR_AXI_DMA_0_DEVICE_ID := 0
  XAXIDMA_IRQ_ALL_MASK := 0x00007000
  XAxiDma_LookupConfig := fun _ k => (cfg, k)
  XAxiDma_CfgInitialize := fun _ k => (initSt, k)
  XAxiDma_IntrDisable := fun _ _ k => k
  Xil_DCacheFlushRange := fun _ _ k _ => k
  XAxiDma_SimpleTransfer := fun _ _ d k m =>
    (if d = Dir.XAXIDMA_DEVICE_TO_DMA then rxSt else txSt, k, m)
  XAxiDma_Busy := fun _ k m => (if k = 0 then 0 else 1, k - 1, m)
  Xil_DCacheInvalidateRange := fun _ _ k m => (k, xfer m)

/-- The accelerator of the design: every byte of RX receives the complement of
the byte of TX at the same offset. -/
def invertingEngine (m : Mem) : Mem := fun a =>
  if RX_BUFFER_BASE ≤ a ∧ a < RX_BUFFER_BASE + TEST_LENGTH then
    255 - m (a - RX_BUFFER_BASE + TX_BUFFER_BASE) % 256
  else m a

/-- An engine that copies TX to RX unmodified. -/
def copyingEngine (m : Mem) : Mem := fun a =>
  if RX_BUFFER_BASE ≤ a ∧ a < RX_BUFFER_BASE + TEST_LENGTH then
    m (a - RX_BUFFER_BASE + TX_BUFFER_BASE)
  else m a

/-- A memory that holds zero everywhere. -/
def zeroMem : Mem := fun _ => 0

/-- The design's accelerator behind a driver on which every call succeeds. -/
def invertDriver : Driver Nat := testDriver 1 0 0 0 invertingEngine

/-- A copying engine behind a driver on which every call succeeds. -/
def copyDriver : Driver Nat := testDriver 1 0 0 0 copyingEngine

/-- A driver whose lookup finds no configuration. -/
def nullDriver : Driver Nat := testDriver 0 0 0 0 (fun m => m)

/-- A driver whose initialisation fails. -/
def initFailDriver : Driver Nat := testDriver 1 1 0 0 (fun m => m)

/-- A driver whose receive launch fails. -/
def rxFailDriver : Driver Nat := testDriver 1 0 1 0 (fun m => m)

/-- A driver whose send launch fails. -/
def txFailDriver : Driver Nat := testDriver 1 0 0 1 (fun m => m)

/-- A complete run with the design's accelerator: both channels answer busy
during two iterations of the polling loop, then idle. -/
def invertRun : Outcome Nat := main invertDriver 4 2 zeroMem

/-- A complete run with the copying engine. -/
def copyRun : Outcome Nat := main copyDriver 1 0 zeroMem

/-! ## Memory lemmas -/

theorem read32_lt (m : Mem) (a : Nat) : read32 m a < 4294967296 := by
  unfold read32; omega

theorem write32_outside (m : Mem) (a v x : Nat) (h : x < a ∨ a + 4 ≤ x) :
    write32 m a v x = m x := by
  unfold write32
  have h0 : x ≠ a := by omega
  have h1 : x ≠ a + 1 := by omega
  have h2 : x ≠ a + 2 := by omega
  have h3 : x ≠ a + 3 := by omega
  simp [h0, h1, h2, h3]

theorem read32_write32_same (m : Mem) (a v : Nat) :
    read32 (write32 m a v) a = v % 4294967296 := by
  unfold read32 write32
  simp
  omega

theorem read32_write32_other (m : Mem) (a v b : Nat) (h : b + 4 ≤ a ∨ a + 4 ≤ b) :
    read32 (write32 m a v) b = read32 m b := by
  unfold read32
  rw [write32_outside m a v b (by omega), write32_outside m a v (b + 1) (by omega),
    write32_outside m a v (b + 2) (by omega), write32_outside m a v (b + 3) (by omega)]

theorem foldl_fillBody_trace (l : List Nat) (s : State σ) :
    (l.foldl fillBody s).trace = s.trace ++ l.flatMap (fun i =>
      [Event.store (TX_BUFFER_BASE + 4 * i) i, Event.store (RX_BUFFER_BASE + 4 * i) 0]) := by
  induction l generalizing s with
  | nil => simp
  | cons i l ih => simp [ih, fillBody, store32]

theorem foldl_fillBody_drv (l : List Nat) (s : State σ) :
    (l.foldl fillBody s).drv = s.drv := by
  induction l generalizing s with
  | nil => simp
  | cons i l ih => simp [ih, fillBody, store32]

theorem fillLoop_trace (s : State σ) : (fillLoop s).trace = s.trace ++ fillEvents :=
  foldl_fillBody_trace _ s

theorem fillLoop_drv (s : State σ) : (fillLoop s).drv = s.drv :=
  foldl_fillBody_drv _ s

theorem fill_mem_invariant (s : State σ) (n : Nat) (hn : n ≤ 32) :
    (∀ i, i < n → txWord ((List.range n).foldl fillBody s).mem i = i
        ∧ rxWord ((List.range n).foldl fillBody s).mem i = 0)
    ∧ ∀ a, ¬ (TX_BUFFER_BASE ≤ a ∧ a < TX_BUFFER_BASE + 4 * n) →
        ¬ (RX_BUFFER_BASE ≤ a ∧ a < RX_BUFFER_BASE + 4 * n) →
        ((List.range n).foldl fillBody s).mem a = s.mem a := by
  induction n with
  | zero => simp
  | succ n ih =>
    obtain ⟨ih1, ih2⟩ := ih (by omega)
    rw [List.range_succ, List.foldl_append]
    simp only [List.foldl_cons, List.foldl_nil, fillBody, store32, txWord, rxWord,
      TX_BUFFER_BASE, RX_BUFFER_BASE] at ih1 ih2 ⊢
    refine ⟨fun i hi => ?_, fun a h1 h2 => ?_⟩
    · rcases Nat.lt_succ_iff_lt_or_eq.mp hi with h | h
      · obtain ⟨a1, a2⟩ := ih1 i h
        rw [read32_write32_other _ _ _ _ (by omega), read32_write32_other _ _ _ _ (by omega),
          read32_write32_other _ _ _ _ (by omega), read32_write32_other _ _ _ _ (by omega)]
        exact ⟨a1, a2⟩
      · subst h
        rw [read32_write32_other _ _ _ _ (by omega), read32_write32_same,
          read32_write32_same]
        omega
    · rw [write32_outside _ _ _ _ (by omega), write32_outside _ _ _ _ (by omega)]
      exact ih2 a (by omega) (by omega)


/-! ## The loops in closed form -/

theorem pollLoop_spec (D : Driver σ) (n : Nat) (s : State σ) :
    ∃ its : List (List Event), (∀ it ∈ its, BusyIteration it) ∧
      (((pollLoop D n s).2 = false ∧ (pollLoop D n s).1.trace = s.trace ++ its.flatten) ∨
       ((pollLoop D n s).2 = true ∧
         (pollLoop D n s).1.trace = s.trace ++ its.flatten ++ idleIteration)) := by
  induction n generalizing s with
  | zero => exact ⟨[], by simp, Or.inl ⟨rfl, by simp [pollLoop]⟩⟩
  | succ n ih =>
    by_cases h1 : (callBusy D Dir.XAXIDMA_DMA_TO_DEVICE s).1 = 0
    · by_cases h2 : (callBusy D Dir.XAXIDMA_DEVICE_TO_DMA
          (callBusy D Dir.XAXIDMA_DMA_TO_DEVICE s).2).1 = 0
      · refine ⟨[], by simp, Or.inr ⟨by simp [pollLoop, h1, h2], ?_⟩⟩
        simp only [pollLoop, h1, h2, ne_eq, not_true_eq_false, if_false]
        simp only [callBusy, idleIteration] at h1 h2 ⊢
        simp [h1, h2]
      · obtain ⟨its, hits, h⟩ := ih (callBusy D Dir.XAXIDMA_DEVICE_TO_DMA
          (callBusy D Dir.XAXIDMA_DMA_TO_DEVICE s).2).2
        refine ⟨[Event.XAxiDma_Busy Dir.XAXIDMA_DMA_TO_DEVICE 0,
          Event.XAxiDma_Busy Dir.XAXIDMA_DEVICE_TO_DMA (callBusy D Dir.XAXIDMA_DEVICE_TO_DMA
            (callBusy D Dir.XAXIDMA_DMA_TO_DEVICE s).2).1] :: its, ?_, ?_⟩
        · intro it hit
          rcases List.mem_cons.mp hit with h | h
          · exact Or.inr ⟨_, h2, h⟩
          · exact hits it h
        · simp only [pollLoop, h1, h2, ne_eq, not_true_eq_false, not_false_eq_true, if_false,
            if_true]
          simp only [callBusy] at h1 h2 h ⊢
          simpa [h1] using h
    · obtain ⟨its, hits, h⟩ := ih (callBusy D Dir.XAXIDMA_DMA_TO_DEVICE s).2
      refine ⟨[Event.XAxiDma_Busy Dir.XAXIDMA_DMA_TO_DEVICE
        (callBusy D Dir.XAXIDMA_DMA_TO_DEVICE s).1] :: its, ?_, ?_⟩
      · intro it hit
        rcases List.mem_cons.mp hit with h | h
        · exact Or.inl ⟨_, h1, h⟩
        · exact hits it h
      · simp only [pollLoop, h1, ne_eq, not_false_eq_true, if_true]
        simp only [callBusy] at h1 h ⊢
        simpa using h

theorem foldl_compareBody (l : List Nat) (s : State σ) (k : Nat) :
    (l.foldl compareBody (s, k)).1.trace = s.trace ++ l.flatMap (compareEventsAt s.mem)
    ∧ (l.foldl compareBody (s, k)).1.mem = s.mem
    ∧ (l.foldl compareBody (s, k)).1.drv = s.drv
    ∧ (l.foldl compareBody (s, k)).2 = k + (l.filter (mismatch s.mem)).length := by
  induction l generalizing s k with
  | nil => simp
  | cons i l ih =>
    rw [List.foldl_cons]
    by_cases hm : rxWord s.mem i = not32 (txWord s.mem i)
    · have hb : compareBody (s, k) i =
          ({ s with trace := s.trace ++ compareLoads s.mem i }, k) := by
        simp only [rxWord, txWord] at hm
        simp [compareBody, load32, compareLoads, hm, txWord, rxWord]
      rw [hb]
      obtain ⟨h1, h2, h3, h4⟩ := ih { s with trace := s.trace ++ compareLoads s.mem i } k
      refine ⟨?_, h2, h3, ?_⟩
      · rw [h1]; simp [compareEventsAt, mismatch, hm]
      · rw [h4]; simp [mismatch, hm]
    · have hb : compareBody (s, k) i =
          ({ s with trace := s.trace ++ compareLoads s.mem i ++ [mismatchRecord s.mem i] },
            k + 1) := by
        simp only [rxWord, txWord] at hm
        simp [compareBody, load32, compareLoads, hm, txWord, rxWord, emit, mismatchRecord]
      rw [hb]
      obtain ⟨h1, h2, h3, h4⟩ :=
        ih { s with trace := s.trace ++ compareLoads s.mem i ++ [mismatchRecord s.mem i] }
          (k + 1)
      refine ⟨?_, h2, h3, ?_⟩
      · rw [h1]; simp [compareEventsAt, mismatch, hm]
      · rw [h4]; simp [mismatch, hm]; omega

theorem compareLoop_trace (s : State σ) :
    (compareLoop s).1.trace = s.trace ++ compareEvents s.mem := by
  unfold compareLoop compareEvents
  exact (foldl_compareBody (List.range (TEST_LENGTH / 4)) s 0).1

theorem compareLoop_mem (s : State σ) : (compareLoop s).1.mem = s.mem := by
  unfold compareLoop
  exact (foldl_compareBody (List.range (TEST_LENGTH / 4)) s 0).2.1

theorem compareLoop_drv (s : State σ) : (compareLoop s).1.drv = s.drv := by
  unfold compareLoop
  exact (foldl_compareBody (List.range (TEST_LENGTH / 4)) s 0).2.2.1

theorem compareLoop_count (s : State σ) :
    (compareLoop s).2 = (mismatchIndices s.mem).length := by
  unfold compareLoop mismatchIndices
  rw [(foldl_compareBody (List.range (TEST_LENGTH / 4)) s 0).2.2.2]
  omega


theorem emit_trace (e : Event) (s : State σ) : (emit e s).trace = s.trace ++ [e] := rfl

theorem emit_mem (e : Event) (s : State σ) : (emit e s).mem = s.mem := rfl

theorem callLookupConfig_trace (D : Driver σ) (i : Nat) (s : State σ) :
    (callLookupConfig D i s).2.trace
      = s.trace ++ [Event.XAxiDma_LookupConfig i (callLookupConfig D i s).1] := rfl

theorem callLookupConfig_mem (D : Driver σ) (i : Nat) (s : State σ) :
    (callLookupConfig D i s).2.mem = s.mem := rfl

theorem callCfgInitialize_trace (D : Driver σ) (c : Nat) (s : State σ) :
    (callCfgInitialize D c s).2.trace
      = s.trace ++ [Event.XAxiDma_CfgInitialize c (callCfgInitialize D c s).1] := rfl

theorem callCfgInitialize_mem (D : Driver σ) (c : Nat) (s : State σ) :
    (callCfgInitialize D c s).2.mem = s.mem := rfl

theorem callIntrDisable_trace (D : Driver σ) (k : Nat) (d : Dir) (s : State σ) :
    (callIntrDisable D k d s).trace = s.trace ++ [Event.XAxiDma_IntrDisable k d] := rfl

theorem callFlushRange_trace (D : Driver σ) (a l : Nat) (s : State σ) :
    (callFlushRange D a l s).trace = s.trace ++ [Event.Xil_DCacheFlushRange a l] := rfl

theorem callSimpleTransfer_trace (D : Driver σ) (a l : Nat) (d : Dir) (s : State σ) :
    (callSimpleTransfer D a l d s).2.trace
      = s.trace ++ [Event.XAxiDma_SimpleTransfer a l d (callSimpleTransfer D a l d s).1] :=
  rfl

theorem callInvalidateRange_trace (D : Driver σ) (a l : Nat) (s : State σ) :
    (callInvalidateRange D a l s).trace
      = s.trace ++ [Event.Xil_DCacheInvalidateRange a l] := rfl

theorem verify_tail (D : Driver σ) (s : State σ) (f : State σ)
    (hf : f = emit Event.cleanup_platform
      (if (compareLoop (callInvalidateRange D RX_BUFFER_BASE TEST_LENGTH
            (emit (Event.print msgComplete) s))).2 = 0
        then emit (Event.print msgSuccess)
          (compareLoop (callInvalidateRange D RX_BUFFER_BASE TEST_LENGTH
            (emit (Event.print msgComplete) s))).1
        else emit (Event.print msgFailure)
          (compareLoop (callInvalidateRange D RX_BUFFER_BASE TEST_LENGTH
            (emit (Event.print msgComplete) s))).1)) :
    f.trace = s.trace ++ [Event.print msgComplete, invalidateRx] ++ compareEvents f.mem
        ++ [verdict f.mem, Event.cleanup_platform]
    ∧ (compareLoop (callInvalidateRange D RX_BUFFER_BASE TEST_LENGTH
            (emit (Event.print msgComplete) s))).2 = (mismatchIndices f.mem).length := by
  generalize hsv : callInvalidateRange D RX_BUFFER_BASE TEST_LENGTH
    (emit (Event.print msgComplete) s) = sv at hf
  have hsvt : sv.trace = s.trace ++ [Event.print msgComplete, invalidateRx] := by
    rw [← hsv, callInvalidateRange_trace, emit_trace]
    simp [invalidateRx, TEST_LENGTH]
  have hfm : f.mem = sv.mem := by
    rw [hf, emit_mem]
    split_ifs
    · rw [emit_mem, compareLoop_mem]
    · rw [emit_mem, compareLoop_mem]
  rw [hfm]
  refine ⟨?_, compareLoop_count sv⟩
  rw [hf, emit_trace]
  by_cases h : (compareLoop sv).2 = 0
  · rw [if_pos h, emit_trace, compareLoop_trace, hsvt]
    rw [compareLoop_count] at h
    simp only [verdict]
    rw [if_pos h]
    simp
  · rw [if_neg h, emit_trace, compareLoop_trace, hsvt]
    rw [compareLoop_count] at h
    simp only [verdict]
    rw [if_neg h]
    simp

theorem prep_trace (D : Driver σ) (drv0 : σ) (mem0 : Mem) (s : State σ)
    (hs : s = emit (Event.print msgLaunched) (callFlushRange D RX_BUFFER_BASE TEST_LENGTH
      (callFlushRange D TX_BUFFER_BASE TEST_LENGTH (fillLoop (emit (Event.print msgFilling)
        (callIntrDisable D D.XAXIDMA_IRQ_ALL_MASK Dir.XAXIDMA_DMA_TO_DEVICE
          (callIntrDisable D D.XAXIDMA_IRQ_ALL_MASK Dir.XAXIDMA_DEVICE_TO_DMA
            (callCfgInitialize D (callLookupConfig D (DMA_DEV_ID D) (emit (Event.print msgInit)
              (emit (Event.print msgStart) (emit Event.init_platform
                { drv := drv0, mem := mem0, trace := [] })))).1
              (callLookupConfig D (DMA_DEV_ID D) (emit (Event.print msgInit)
                (emit (Event.print msgStart) (emit Event.init_platform
                  { drv := drv0, mem := mem0, trace := [] })))).2).2)))))))
    (h2 : (callCfgInitialize D (callLookupConfig D (DMA_DEV_ID D) (emit (Event.print msgInit)
              (emit (Event.print msgStart) (emit Event.init_platform
                { drv := drv0, mem := mem0, trace := [] })))).1
              (callLookupConfig D (DMA_DEV_ID D) (emit (Event.print msgInit)
                (emit (Event.print msgStart) (emit Event.init_platform
                  { drv := drv0, mem := mem0, trace := [] })))).2).1 = D.XST_SUCCESS) :
    s.trace = prepEvents D (callLookupConfig D (DMA_DEV_ID D) (emit (Event.print msgInit)
      (emit (Event.print msgStart) (emit Event.init_platform
        { drv := drv0, mem := mem0, trace := [] })))).1 := by
  rw [hs]
  simp only [emit_trace, callFlushRange_trace, fillLoop_trace, callIntrDisable_trace,
    callCfgInitialize_trace, callLookupConfig_trace, h2]
  simp [prepEvents, lookupEvents, flushTx, flushRx, TEST_LENGTH]

theorem main_shape (D : Driver σ) (budget : Nat) (drv0 : σ) (mem0 : Mem) :
    RunShape D mem0 (main D budget drv0 mem0) := by
  unfold main
  simp only []
  by_cases h1 : (callLookupConfig D (DMA_DEV_ID D) (emit (Event.print msgInit)
      (emit (Event.print msgStart)
        (emit Event.init_platform { drv := drv0, mem := mem0, trace := [] })))).1 = 0
  · rw [if_pos h1]
    refine RunShape.configNotFound ?_ rfl rfl ?_
    · simp only [emit_trace, callLookupConfig_trace, h1]
      simp [lookupEvents]
    · simp only [emit_mem, callLookupConfig_mem]
  rw [if_neg h1]
  by_cases h2 : (callCfgInitialize D (callLookupConfig D (DMA_DEV_ID D)
      (emit (Event.print msgInit) (emit (Event.print msgStart) (emit Event.init_platform
        { drv := drv0, mem := mem0, trace := [] })))).1
      (callLookupConfig D (DMA_DEV_ID D) (emit (Event.print msgInit)
        (emit (Event.print msgStart) (emit Event.init_platform
          { drv := drv0, mem := mem0, trace := [] })))).2).1 = D.XST_SUCCESS
  swap
  · rw [if_pos h2]
    refine RunShape.initFailed _ _ h1 h2 ?_ rfl rfl ?_
    · simp only [emit_trace, callLookupConfig_trace, callCfgInitialize_trace]
      simp [lookupEvents]
    · simp only [emit_mem, callLookupConfig_mem, callCfgInitialize_mem]
  rw [if_neg (not_not.mpr h2)]
  generalize hs : emit (Event.print msgLaunched) (callFlushRange D RX_BUFFER_BASE TEST_LENGTH
      (callFlushRange D TX_BUFFER_BASE TEST_LENGTH (fillLoop (emit (Event.print msgFilling)
        (callIntrDisable D D.XAXIDMA_IRQ_ALL_MASK Dir.XAXIDMA_DMA_TO_DEVICE
          (callIntrDisable D D.XAXIDMA_IRQ_ALL_MASK Dir.XAXIDMA_DEVICE_TO_DMA
            (callCfgInitialize D (callLookupConfig D (DMA_DEV_ID D) (emit (Event.print msgInit)
              (emit (Event.print msgStart) (emit Event.init_platform
                { drv := drv0, mem := mem0, trace := [] })))).1
              (callLookupConfig D (DMA_DEV_ID D) (emit (Event.print msgInit)
                (emit (Event.print msgStart) (emit Event.init_platform
                  { drv := drv0, mem := mem0, trace := [] })))).2).2)))))) = s
  have hst := prep_trace D drv0 mem0 s hs.symm h2
  generalize (callLookupConfig D (DMA_DEV_ID D) (emit (Event.print msgInit)
      (emit (Event.print msgStart)
        (emit Event.init_platform { drv := drv0, mem := mem0, trace := [] })))).1 = c
    at h1 hst
  clear hs h2
  by_cases h3 : (callSimpleTransfer D RX_BUFFER_BASE TEST_LENGTH
      Dir.XAXIDMA_DEVICE_TO_DMA s).1 = D.XST_SUCCESS
  swap
  · rw [if_pos h3]
    refine RunShape.rxFailed c _ h1 h3 ?_ rfl rfl
    simp only [emit_trace, callSimpleTransfer_trace, hst]
    simp [launchRx, TEST_LENGTH]
  rw [if_neg (not_not.mpr h3)]
  by_cases h4 : (callSimpleTransfer D TX_BUFFER_BASE TEST_LENGTH Dir.XAXIDMA_DMA_TO_DEVICE
      (callSimpleTransfer D RX_BUFFER_BASE TEST_LENGTH
        Dir.XAXIDMA_DEVICE_TO_DMA s).2).1 = D.XST_SUCCESS
  swap
  · rw [if_pos h4]
    refine RunShape.txFailed c _ h1 h4 ?_ rfl rfl
    simp only [emit_trace, callSimpleTransfer_trace, hst, h3]
    simp [launchRx, launchTx, TEST_LENGTH]
  rw [if_neg (not_not.mpr h4)]
  have hlt : (callSimpleTransfer D TX_BUFFER_BASE TEST_LENGTH Dir.XAXIDMA_DMA_TO_DEVICE
      (callSimpleTransfer D RX_BUFFER_BASE TEST_LENGTH Dir.XAXIDMA_DEVICE_TO_DMA s).2).2.trace
      = prepEvents D c ++ [launchRx D.XST_SUCCESS, launchTx D.XST_SUCCESS] := by
    simp only [callSimpleTransfer_trace, hst, h3, h4]
    simp [launchRx, launchTx, TEST_LENGTH]
  generalize (callSimpleTransfer D TX_BUFFER_BASE TEST_LENGTH Dir.XAXIDMA_DMA_TO_DEVICE
      (callSimpleTransfer D RX_BUFFER_BASE TEST_LENGTH Dir.XAXIDMA_DEVICE_TO_DMA s).2).2 = sl
    at hlt
  obtain ⟨its, hits, h⟩ := pollLoop_spec D budget sl
  rcases h with ⟨hf, ht⟩ | ⟨hf, ht⟩
  · rw [if_pos hf]
    refine RunShape.polling c its h1 hits ?_ rfl rfl
    simp only []
    rw [ht, hlt]
  · rw [if_neg (by rw [hf]; simp)]
    obtain ⟨hv1, hv2⟩ := verify_tail D (pollLoop D budget sl).1 _ rfl
    refine RunShape.verified c its h1 hits ?_ rfl ?_
    · simp only []
      rw [hv1, ht, hlt]
    · exact congrArg some hv2


/-! ## Facts about the segments of a trace -/

theorem split_after {α : Type} (p : α → Bool) (A B pre post : List α) (e : α)
    (h : A ++ B = pre ++ e :: post) (hA : ∀ x ∈ A, p x = false) (he : p e = true) :
    ∃ a, pre = A ++ a ∧ B = a ++ e :: post := by
  rcases List.append_eq_append_iff.mp h with ⟨a, h1, h2⟩ | ⟨c, h1, h2⟩
  · exact ⟨a, h1, h2⟩
  · cases c with
    | nil =>
      refine ⟨[], ?_, ?_⟩
      · simpa using h1.symm
      · simpa using h2.symm
    | cons x c =>
      simp only [List.cons_append, List.cons.injEq] at h2
      have hx : x ∈ A := by rw [h1]; simp
      have := hA x hx
      rw [← h2.1, he] at this
      exact absurd this (by simp)

theorem mem_fillEvents (e : Event) (h : e ∈ fillEvents) :
    ∃ i, i < 32 ∧ (e = Event.store (TX_BUFFER_BASE + 4 * i) i
      ∨ e = Event.store (RX_BUFFER_BASE + 4 * i) 0) := by
  simp only [fillEvents, fillEventsUpTo, List.mem_flatMap, List.mem_range, TEST_LENGTH] at h
  obtain ⟨i, hi, h⟩ := h
  refine ⟨i, by omega, ?_⟩
  simpa using h

theorem mem_busy_flatten (its : List (List Event)) (hits : ∀ it ∈ its, BusyIteration it)
    (e : Event) (h : e ∈ its.flatten) : ∃ d b, e = Event.XAxiDma_Busy d b := by
  obtain ⟨it, hit, he⟩ := List.mem_flatten.mp h
  rcases hits it hit with ⟨b, _, rfl⟩ | ⟨b, _, rfl⟩
  · simp only [List.mem_singleton] at he
    exact ⟨_, _, he⟩
  · simp only [List.mem_cons, List.mem_singleton, List.not_mem_nil, or_false] at he
    rcases he with he | he
    · exact ⟨_, _, he⟩
    · exact ⟨_, _, he⟩

theorem mem_compareEvents (m : Mem) (e : Event) (h : e ∈ compareEvents m) :
    ∃ i, i < 32 ∧ (e = Event.load (TX_BUFFER_BASE + 4 * i) (txWord m i)
      ∨ e = Event.load (RX_BUFFER_BASE + 4 * i) (rxWord m i)
      ∨ (mismatch m i = true ∧ e = mismatchRecord m i)) := by
  simp only [compareEvents, List.mem_flatMap, List.mem_range, TEST_LENGTH] at h
  obtain ⟨i, hi, h⟩ := h
  refine ⟨i, by omega, ?_⟩
  simp only [compareEventsAt, compareLoads, List.mem_append, List.mem_cons,
    List.not_mem_nil, or_false] at h
  rcases h with (h | h) | h
  · exact Or.inl h
  · exact Or.inr (Or.inl h)
  · by_cases hm : mismatch m i = true
    · rw [if_pos hm] at h
      exact Or.inr (Or.inr ⟨hm, by simpa using h⟩)
    · rw [if_neg hm] at h
      simp at h


theorem prepEvents_eq (D : Driver σ) (c : Nat) :
    prepEvents D c = filledEvents D c ++ [flushTx, flushRx, Event.print msgLaunched] := rfl

theorem verdict_isLate (m : Mem) : (verdict m).isLate = true := by
  unfold verdict; split_ifs <;> rfl

theorem run_rest (D : Driver σ) (mem0 : Mem) (o : Outcome σ) (h : RunShape D mem0 o) :
    (∀ e ∈ o.final.trace, e.isEarly = true) ∨
    ∃ c rest, o.final.trace = prepEvents D c ++ rest ∧ ∀ x ∈ rest, x.isLate = true := by
  cases h with
  | configNotFound ht hr he hm =>
    left; intro e hx; rw [ht] at hx
    simp only [lookupEvents, List.mem_append, List.mem_cons, List.not_mem_nil, or_false] at hx
    rcases hx with (rfl | rfl | rfl | rfl) | rfl <;> rfl
  | initFailed c st hc hst ht hr he hm =>
    left; intro e hx; rw [ht] at hx
    simp only [lookupEvents, List.mem_append, List.mem_cons, List.not_mem_nil, or_false] at hx
    rcases hx with (rfl | rfl | rfl | rfl) | rfl | rfl <;> rfl
  | rxFailed c st hc hst ht hr he =>
    right; refine ⟨c, _, ht, ?_⟩
    intro x hx
    simp only [List.mem_cons, List.not_mem_nil, or_false] at hx
    rcases hx with rfl | rfl <;> rfl
  | txFailed c st hc hst ht hr he =>
    right; refine ⟨c, _, ht, ?_⟩
    intro x hx
    simp only [List.mem_cons, List.not_mem_nil, or_false] at hx
    rcases hx with rfl | rfl | rfl <;> rfl
  | polling c its hc hits ht hr he =>
    right; refine ⟨c, _, by rw [ht, List.append_assoc], ?_⟩
    intro x hx
    simp only [List.mem_append, List.mem_cons, List.not_mem_nil, or_false] at hx
    rcases hx with (rfl | rfl) | hx
    · rfl
    · rfl
    · obtain ⟨d, b, rfl⟩ := mem_busy_flatten its hits x hx; rfl
  | verified c its hc hits ht hr he =>
    right
    refine ⟨c, [launchRx D.XST_SUCCESS, launchTx D.XST_SUCCESS] ++ (its.flatten ++
      (idleIteration ++ ([Event.print msgComplete, invalidateRx] ++
        (compareEvents o.final.mem ++ [verdict o.final.mem, Event.cleanup_platform])))),
      by rw [ht]; simp only [List.append_assoc], ?_⟩
    intro x hx
    simp only [List.mem_append, List.mem_cons, List.not_mem_nil, or_false, idleIteration]
      at hx
    rcases hx with (rfl | rfl) | hx | (rfl | rfl) | (rfl | rfl) | hx | rfl | rfl
    · rfl
    · rfl
    · obtain ⟨d, b, rfl⟩ := mem_busy_flatten its hits x hx; rfl
    · rfl
    · rfl
    · rfl
    · rfl
    · obtain ⟨i, _, rfl | rfl | ⟨_, rfl⟩⟩ := mem_compareEvents _ x hx <;> rfl
    · exact verdict_isLate _
    · rfl

theorem filledEvents_mem (D : Driver σ) (c : Nat) (x : Event) (hx : x ∈ filledEvents D c) :
    x.isFlush = false ∧ x.isLaunch = false := by
  simp only [filledEvents, lookupEvents, List.mem_append, List.mem_cons, List.not_mem_nil,
    or_false] at hx
  rcases hx with (hx | hx) | hx
  · rcases hx with rfl | rfl | rfl | rfl <;> exact ⟨rfl, rfl⟩
  · rcases hx with rfl | rfl | rfl | rfl <;> exact ⟨rfl, rfl⟩
  · obtain ⟨i, _, rfl | rfl⟩ := mem_fillEvents x hx <;> exact ⟨rfl, rfl⟩

theorem filledEvents_stores (D : Driver σ) (c : Nat) :
    (filledEvents D c).filter Event.isStore = fillEvents := by
  have h : fillEvents.filter Event.isStore = fillEvents := by
    rw [List.filter_eq_self]
    intro x hx
    obtain ⟨i, _, rfl | rfl⟩ := mem_fillEvents x hx <;> rfl
  simp only [filledEvents, lookupEvents, List.filter_append, h]
  rfl

theorem isLate_not_store (x : Event) (h : x.isLate = true) : x.isStore = false := by
  cases x <;> first | rfl | exact absurd h (by simp [Event.isLate])

theorem isEarly_not_launch (x : Event) (h : x.isEarly = true) :
    x.isLaunch = false ∧ x.isFlush = false := by
  cases x <;> first | exact ⟨rfl, rfl⟩ | exact absurd h (by simp [Event.isEarly])


theorem countP_zero {α : Type} (p : α → Bool) (l : List α) (h : ∀ x ∈ l, p x = false) :
    l.countP p = 0 := by
  rw [List.countP_eq_zero]
  intro x hx
  rw [h x hx]
  simp

theorem prepEvents_mem (D : Driver σ) (c : Nat) (x : Event) (hx : x ∈ prepEvents D c) :
    x.isLaunch = false ∧ x.isLoad = false ∧ x.isInvalidate = false ∧ x.isBusy = false
      ∧ x.isPrintf = false := by
  simp only [prepEvents, lookupEvents, List.mem_append, List.mem_cons, List.not_mem_nil,
    or_false] at hx
  rcases hx with (((hx | hx) | hx) | hx)
  · rcases hx with rfl | rfl | rfl | rfl <;> exact ⟨rfl, rfl, rfl, rfl, rfl⟩
  · rcases hx with rfl | rfl | rfl | rfl <;> exact ⟨rfl, rfl, rfl, rfl, rfl⟩
  · obtain ⟨i, _, rfl | rfl⟩ := mem_fillEvents x hx <;> exact ⟨rfl, rfl, rfl, rfl, rfl⟩
  · rcases hx with rfl | rfl | rfl <;> exact ⟨rfl, rfl, rfl, rfl, rfl⟩

theorem isLaunchOn_false (d : Dir) (x : Event) (h : x.isLaunch = false) :
    x.isLaunchOn d = false := by
  cases x <;> first | rfl | exact absurd h (by simp [Event.isLaunch])

theorem isEarly_props (x : Event) (h : x.isEarly = true) :
    x.isLaunch = false ∧ x.isFlush = false ∧ x.isStore = false ∧ x.isLoad = false
      ∧ x.isInvalidate = false ∧ x.isBusy = false ∧ x.isPrintf = false := by
  cases x <;>
    first
    | exact ⟨rfl, rfl, rfl, rfl, rfl, rfl, rfl⟩
    | exact absurd h (by simp [Event.isEarly])

/-- The launches of a run: none, a failed receive launch that ends the run, or a
successful receive launch followed by the send launch and by events that are
not launches. -/
theorem run_launches (D : Driver σ) (mem0 : Mem) (o : Outcome σ) (h : RunShape D mem0 o) :
    (∀ e ∈ o.final.trace, e.isEarly = true)
    ∨ (∃ c st, st ≠ D.XST_SUCCESS ∧
        o.final.trace = prepEvents D c ++ [launchRx st, Event.print msgRxFailed])
    ∨ (∃ c st rest, o.final.trace
          = prepEvents D c ++ launchRx D.XST_SUCCESS :: launchTx st :: rest
        ∧ ∀ x ∈ rest, x.isLate = true ∧ x.isLaunch = false) := by
  cases h with
  | configNotFound ht hr he hm =>
    exact (run_rest D mem0 o (RunShape.configNotFound ht hr he hm)).elim Or.inl
      (fun ⟨c, rest, h1, _⟩ => by
        rw [ht] at h1
        have h2 := congrArg List.length h1
        simp [lookupEvents, prepEvents, fillEvents, fillEventsUpTo, TEST_LENGTH] at h2)
  | initFailed c st hc hst ht hr he hm =>
    left; intro e hx; rw [ht] at hx
    simp only [lookupEvents, List.mem_append, List.mem_cons, List.not_mem_nil, or_false] at hx
    rcases hx with (rfl | rfl | rfl | rfl) | rfl | rfl <;> rfl
  | rxFailed c st hc hst ht hr he => exact Or.inr (Or.inl ⟨c, st, hst, ht⟩)
  | txFailed c st hc hst ht hr he =>
    refine Or.inr (Or.inr ⟨c, st, [Event.print msgTxFailed], by rw [ht], ?_⟩)
    intro x hx
    simp only [List.mem_cons, List.not_mem_nil, or_false] at hx
    subst hx
    exact ⟨rfl, rfl⟩
  | polling c its hc hits ht hr he =>
    refine Or.inr (Or.inr ⟨c, D.XST_SUCCESS, its.flatten, by rw [ht]; simp, ?_⟩)
    intro x hx
    obtain ⟨d, b, rfl⟩ := mem_busy_flatten its hits x hx
    exact ⟨rfl, rfl⟩
  | verified c its hc hits ht hr he =>
    refine Or.inr (Or.inr ⟨c, D.XST_SUCCESS, its.flatten ++ (idleIteration ++
      ([Event.print msgComplete, invalidateRx] ++ (compareEvents o.final.mem ++
        [verdict o.final.mem, Event.cleanup_platform]))), by rw [ht]; simp, ?_⟩)
    intro x hx
    simp only [List.mem_append, List.mem_cons, List.not_mem_nil, or_false, idleIteration]
      at hx
    rcases hx with hx | (rfl | rfl) | (rfl | rfl) | hx | rfl | rfl
    · obtain ⟨d, b, rfl⟩ := mem_busy_flatten its hits x hx; exact ⟨rfl, rfl⟩
    · exact ⟨rfl, rfl⟩
    · exact ⟨rfl, rfl⟩
    · exact ⟨rfl, rfl⟩
    · exact ⟨rfl, rfl⟩
    · obtain ⟨i, _, rfl | rfl | ⟨_, rfl⟩⟩ := mem_compareEvents _ x hx <;> exact ⟨rfl, rfl⟩
    · unfold verdict; split_ifs <;> exact ⟨rfl, rfl⟩
    · exact ⟨rfl, rfl⟩

theorem fillEventsUpTo_length (n : Nat) : (fillEventsUpTo n).length = 2 * n := by
  induction n with
  | zero => rfl
  | succ n ih =>
    unfold fillEventsUpTo at ih ⊢
    rw [List.range_succ, List.flatMap_append, List.length_append, ih]
    simp
    omega

theorem not32_eq_sub (x : Nat) (hx : x < 4294967296) : not32 x = 4294967295 - x := by
  have h1 := BitVec.toNat_not (x := BitVec.ofNat 32 x)
  rw [← BitVec.xor_allOnes, BitVec.toNat_xor, BitVec.toNat_allOnes, BitVec.toNat_ofNat] at h1
  norm_num at h1
  rw [Nat.mod_eq_of_lt hx] at h1
  exact h1

theorem not32_ne_self (x : Nat) (hx : x < 4294967296) : x ≠ not32 x := by
  rw [not32_eq_sub x hx]
  omega

theorem filter_isPrintf_compare (m : Mem) (l : List Nat) :
    (l.flatMap (compareEventsAt m)).filter Event.isPrintf
      = (l.filter (mismatch m)).map (mismatchRecord m) := by
  induction l with
  | nil => rfl
  | cons i l ih =>
    rw [List.flatMap_cons, List.filter_append, ih]
    by_cases h : mismatch m i = true
    · rw [List.filter_cons_of_pos h]
      simp [compareEventsAt, compareLoads, h, mismatchRecord, Event.isPrintf]
    · rw [List.filter_cons_of_neg h]
      simp [compareEventsAt, compareLoads, h, Event.isPrintf]

theorem filter_isLoad_compare (m : Mem) (l : List Nat) :
    (l.flatMap (compareEventsAt m)).filter Event.isLoad = l.flatMap (compareLoads m) := by
  induction l with
  | nil => rfl
  | cons i l ih =>
    rw [List.flatMap_cons, List.flatMap_cons, List.filter_append, ih]
    by_cases h : mismatch m i = true
    · simp [compareEventsAt, compareLoads, h, mismatchRecord, Event.isLoad]
    · simp [compareEventsAt, compareLoads, h, Event.isLoad]

theorem filter_nil_of {α : Type} (p : α → Bool) (l : List α) (h : ∀ x ∈ l, p x = false) :
    l.filter p = [] := by
  rw [List.filter_eq_nil_iff]
  intro x hx
  rw [h x hx]
  simp

theorem calls_fillEvents : fillEvents.filter Event.isCall = [] :=
  filter_nil_of _ _ (fun x hx => by obtain ⟨i, _, rfl | rfl⟩ := mem_fillEvents x hx <;> rfl)

theorem calls_lookupEvents (D : Driver σ) (c : Nat) :
    (lookupEvents D c).filter Event.isCall
      = [Event.XAxiDma_LookupConfig (DMA_DEV_ID D) c] := rfl

theorem calls_prepEvents (D : Driver σ) (c : Nat) :
    (prepEvents D c).filter Event.isCall
      = [Event.XAxiDma_LookupConfig (DMA_DEV_ID D) c,
         Event.XAxiDma_CfgInitialize c D.XST_SUCCESS] := by
  simp only [prepEvents, List.filter_append, calls_fillEvents, calls_lookupEvents]
  rfl

theorem calls_busy (its : List (List Event)) (hits : ∀ it ∈ its, BusyIteration it) :
    its.flatten.filter Event.isCall = [] :=
  filter_nil_of _ _ (fun x hx => by obtain ⟨d, b, rfl⟩ := mem_busy_flatten its hits x hx; rfl)

theorem calls_compareEvents (m : Mem) : (compareEvents m).filter Event.isCall = [] :=
  filter_nil_of _ _ (fun x hx => by
    obtain ⟨i, _, rfl | rfl | ⟨_, rfl⟩⟩ := mem_compareEvents m x hx <;> rfl)

theorem calls_verdict (m : Mem) : (verdict m).isCall = false := by
  unfold verdict; split_ifs <;> rfl

theorem calls_configNotFound (D : Driver σ) (t : List Event)
    (ht : t = lookupEvents D 0 ++ [Event.print msgConfigNotFound]) :
    t.filter Event.isCall = [Event.XAxiDma_LookupConfig (DMA_DEV_ID D) 0] := by
  rw [ht]; rfl

theorem calls_initFailed (D : Driver σ) (t : List Event) (c : Nat) (st : Int)
    (ht : t = lookupEvents D c ++
      [Event.XAxiDma_CfgInitialize c st, Event.print msgInitFailed]) :
    t.filter Event.isCall
      = [Event.XAxiDma_LookupConfig (DMA_DEV_ID D) c, Event.XAxiDma_CfgInitialize c st] := by
  rw [ht]; rfl

theorem calls_rxFailed (D : Driver σ) (t : List Event) (c : Nat) (st : Int)
    (ht : t = prepEvents D c ++ [launchRx st, Event.print msgRxFailed]) :
    t.filter Event.isCall
      = [Event.XAxiDma_LookupConfig (DMA_DEV_ID D) c,
         Event.XAxiDma_CfgInitialize c D.XST_SUCCESS, launchRx st] := by
  rw [ht, List.filter_append, calls_prepEvents]; rfl

theorem calls_txFailed (D : Driver σ) (t : List Event) (c : Nat) (st : Int)
    (ht : t = prepEvents D c ++
      [launchRx D.XST_SUCCESS, launchTx st, Event.print msgTxFailed]) :
    t.filter Event.isCall
      = [Event.XAxiDma_LookupConfig (DMA_DEV_ID D) c,
         Event.XAxiDma_CfgInitialize c D.XST_SUCCESS, launchRx D.XST_SUCCESS,
         launchTx st] := by
  rw [ht, List.filter_append, calls_prepEvents]; rfl

theorem calls_polling (D : Driver σ) (t : List Event) (c : Nat) (its : List (List Event))
    (hits : ∀ it ∈ its, BusyIteration it)
    (ht : t = prepEvents D c ++ [launchRx D.XST_SUCCESS, launchTx D.XST_SUCCESS]
      ++ its.flatten) :
    t.filter Event.isCall
      = [Event.XAxiDma_LookupConfig (DMA_DEV_ID D) c,
         Event.XAxiDma_CfgInitialize c D.XST_SUCCESS, launchRx D.XST_SUCCESS,
         launchTx D.XST_SUCCESS] := by
  rw [ht, List.filter_append, List.filter_append, calls_prepEvents, calls_busy its hits]
  rfl

theorem calls_verified (D : Driver σ) (t : List Event) (c : Nat) (its : List (List Event))
    (m : Mem) (hits : ∀ it ∈ its, BusyIteration it)
    (ht : t = prepEvents D c ++ [launchRx D.XST_SUCCESS, launchTx D.XST_SUCCESS]
      ++ its.flatten ++ idleIteration ++ [Event.print msgComplete, invalidateRx]
      ++ compareEvents m ++ [verdict m, Event.cleanup_platform]) :
    t.filter Event.isCall
      = [Event.XAxiDma_LookupConfig (DMA_DEV_ID D) c,
         Event.XAxiDma_CfgInitialize c D.XST_SUCCESS, launchRx D.XST_SUCCESS,
         launchTx D.XST_SUCCESS] := by
  rw [ht]
  simp only [List.filter_append, calls_prepEvents, calls_busy its hits,
    calls_compareEvents]
  simp [List.filter_cons, idleIteration, invalidateRx, launchRx, launchTx, Event.isCall]
  exact calls_verdict _

/-- A run whose lookup returned `NULL`. -/
theorem run_of_null_lookup (D : Driver σ) (mem0 : Mem) (o : Outcome σ)
    (h : RunShape D mem0 o) (i : Nat)
    (hmem : Event.XAxiDma_LookupConfig i 0 ∈ o.final.trace) :
    o.final.trace = lookupEvents D 0 ++ [Event.print msgConfigNotFound]
      ∧ o.ret = some D.XST_FAILURE ∧ o.error_count = none ∧ o.final.mem = mem0 := by
  have hf : Event.XAxiDma_LookupConfig i 0 ∈ o.final.trace.filter Event.isCall :=
    List.mem_filter.mpr ⟨hmem, rfl⟩
  cases h with
  | configNotFound ht hr he hm => exact ⟨ht, hr, he, hm⟩
  | initFailed c st hc hst ht hr he hm =>
    rw [calls_initFailed D _ c st ht] at hf
    simp at hf
    exact absurd hf.2.symm hc
  | rxFailed c st hc hst ht hr he =>
    rw [calls_rxFailed D _ c st ht] at hf
    simp [launchRx] at hf
    exact absurd hf.2.symm hc
  | txFailed c st hc hst ht hr he =>
    rw [calls_txFailed D _ c st ht] at hf
    simp [launchRx, launchTx] at hf
    exact absurd hf.2.symm hc
  | polling c its hc hits ht hr he =>
    rw [calls_polling D _ c its hits ht] at hf
    simp [launchRx, launchTx] at hf
    exact absurd hf.2.symm hc
  | verified c its hc hits ht hr he =>
    rw [calls_verified D _ c its _ hits ht] at hf
    simp [launchRx, launchTx] at hf
    exact absurd hf.2.symm hc

/-- A run whose initialisation returned a status other than `XST_SUCCESS`. -/
theorem run_of_failed_init (D : Driver σ) (mem0 : Mem) (o : Outcome σ)
    (h : RunShape D mem0 o) (p : Nat) (s : Int) (hs : s ≠ D.XST_SUCCESS)
    (hmem : Event.XAxiDma_CfgInitialize p s ∈ o.final.trace) :
    p ≠ 0 ∧ o.final.trace = lookupEvents D p ++
        [Event.XAxiDma_CfgInitialize p s, Event.print msgInitFailed]
      ∧ o.ret = some D.XST_FAILURE ∧ o.error_count = none ∧ o.final.mem = mem0 := by
  have hf : Event.XAxiDma_CfgInitialize p s ∈ o.final.trace.filter Event.isCall :=
    List.mem_filter.mpr ⟨hmem, rfl⟩
  cases h with
  | configNotFound ht hr he hm =>
    rw [calls_configNotFound D _ ht] at hf
    simp at hf
  | initFailed c st hc hst ht hr he hm =>
    rw [calls_initFailed D _ c st ht] at hf
    simp at hf
    obtain ⟨rfl, rfl⟩ := hf
    exact ⟨hc, ht, hr, he, hm⟩
  | rxFailed c st hc hst ht hr he =>
    rw [calls_rxFailed D _ c st ht] at hf
    simp [launchRx] at hf
    exact absurd hf.2 hs
  | txFailed c st hc hst ht hr he =>
    rw [calls_txFailed D _ c st ht] at hf
    simp [launchRx, launchTx] at hf
    exact absurd hf.2 hs
  | polling c its hc hits ht hr he =>
    rw [calls_polling D _ c its hits ht] at hf
    simp [launchRx, launchTx] at hf
    exact absurd hf.2 hs
  | verified c its hc hits ht hr he =>
    rw [calls_verified D _ c its _ hits ht] at hf
    simp [launchRx, launchTx] at hf
    exact absurd hf.2 hs

/-- A run whose receive launch returned a status other than `XST_SUCCESS`. -/
theorem run_of_failed_rx (D : Driver σ) (mem0 : Mem) (o : Outcome σ)
    (h : RunShape D mem0 o) (a l : Nat) (s : Int) (hs : s ≠ D.XST_SUCCESS)
    (hmem : Event.XAxiDma_SimpleTransfer a l Dir.XAXIDMA_DEVICE_TO_DMA s ∈ o.final.trace) :
    a = RX_BUFFER_BASE ∧ l = 128 ∧ ∃ c, c ≠ 0 ∧ o.final.trace = prepEvents D c ++
        [launchRx s, Event.print msgRxFailed]
      ∧ o.ret = some D.XST_FAILURE ∧ o.error_count = none := by
  have hf : Event.XAxiDma_SimpleTransfer a l Dir.XAXIDMA_DEVICE_TO_DMA s
      ∈ o.final.trace.filter Event.isCall := List.mem_filter.mpr ⟨hmem, rfl⟩
  cases h with
  | configNotFound ht hr he hm =>
    rw [calls_configNotFound D _ ht] at hf
    simp at hf
  | initFailed c st hc hst ht hr he hm =>
    rw [calls_initFailed D _ c st ht] at hf
    simp at hf
  | rxFailed c st hc hst ht hr he =>
    rw [calls_rxFailed D _ c st ht] at hf
    simp [launchRx] at hf
    obtain ⟨rfl, rfl, rfl⟩ := hf
    exact ⟨rfl, rfl, c, hc, ht, hr, he⟩
  | txFailed c st hc hst ht hr he =>
    rw [calls_txFailed D _ c st ht] at hf
    simp [launchRx, launchTx] at hf
    exact absurd hf.2.2 hs
  | polling c its hc hits ht hr he =>
    rw [calls_polling D _ c its hits ht] at hf
    simp [launchRx, launchTx] at hf
    exact absurd hf.2.2 hs
  | verified c its hc hits ht hr he =>
    rw [calls_verified D _ c its _ hits ht] at hf
    simp [launchRx, launchTx] at hf
    exact absurd hf.2.2 hs

/-- A run whose send launch returned a status other than `XST_SUCCESS`. -/
theorem run_of_failed_tx (D : Driver σ) (mem0 : Mem) (o : Outcome σ)
    (h : RunShape D mem0 o) (a l : Nat) (s : Int) (hs : s ≠ D.XST_SUCCESS)
    (hmem : Event.XAxiDma_SimpleTransfer a l Dir.XAXIDMA_DMA_TO_DEVICE s ∈ o.final.trace) :
    a = TX_BUFFER_BASE ∧ l = 128 ∧ ∃ c, c ≠ 0 ∧ o.final.trace = prepEvents D c ++
        [launchRx D.XST_SUCCESS, launchTx s, Event.print msgTxFailed]
      ∧ o.ret = some D.XST_FAILURE ∧ o.error_count = none := by
  have hf : Event.XAxiDma_SimpleTransfer a l Dir.XAXIDMA_DMA_TO_DEVICE s
      ∈ o.final.trace.filter Event.isCall := List.mem_filter.mpr ⟨hmem, rfl⟩
  cases h with
  | configNotFound ht hr he hm =>
    rw [calls_configNotFound D _ ht] at hf
    simp at hf
  | initFailed c st hc hst ht hr he hm =>
    rw [calls_initFailed D _ c st ht] at hf
    simp at hf
  | rxFailed c st hc hst ht hr he =>
    rw [calls_rxFailed D _ c st ht] at hf
    simp [launchRx] at hf
  | txFailed c st hc hst ht hr he =>
    rw [calls_txFailed D _ c st ht] at hf
    simp [launchRx, launchTx] at hf
    obtain ⟨rfl, rfl, rfl⟩ := hf
    exact ⟨rfl, rfl, c, hc, ht, hr, he⟩
  | polling c its hc hits ht hr he =>
    rw [calls_polling D _ c its hits ht] at hf
    simp [launchRx, launchTx] at hf
    exact absurd hf.2.2 hs
  | verified c its hc hits ht hr he =>
    rw [calls_verified D _ c its _ hits ht] at hf
    simp [launchRx, launchTx] at hf
    exact absurd hf.2.2 hs

theorem countP_via_calls (p : Event → Bool) (hp : ∀ e, p e = true → e.isCall = true)
    (t : List Event) : t.countP p = (t.filter Event.isCall).countP p := by
  rw [List.countP_filter]
  congr 1
  funext e
  by_cases h : p e = true
  · simp [h, hp e h]
  · simp [h]

theorem prints_prepEvents (D : Driver σ) (c : Nat) (s : String)
    (h : Event.print s ∈ prepEvents D c) :
    s = msgStart ∨ s = msgInit ∨ s = msgFilling ∨ s = msgLaunched := by
  simp only [prepEvents, lookupEvents, flushTx, flushRx, List.mem_append, List.mem_cons,
    List.not_mem_nil, or_false] at h
  rcases h with ((h | h) | h) | h
  · simp at h; tauto
  · simp at h; tauto
  · obtain ⟨i, _, h | h⟩ := mem_fillEvents _ h <;> simp at h
  · simp at h; tauto

theorem isLaunch_isCall (e : Event) (h : e.isLaunch = true) : e.isCall = true := by
  cases e <;> first | rfl | exact absurd h (by simp [Event.isLaunch])

theorem isLaunchOn_isCall (d : Dir) (e : Event) (h : e.isLaunchOn d = true) :
    e.isCall = true := by
  cases e <;> first | rfl | exact absurd h (by simp [Event.isLaunchOn])

theorem isLookup_isCall (e : Event) (h : e.isLookup = true) : e.isCall = true := by
  cases e <;> first | rfl | exact absurd h (by simp [Event.isLookup])

theorem isCfgInitialize_isCall (e : Event) (h : e.isCfgInitialize = true) :
    e.isCall = true := by
  cases e <;> first | rfl | exact absurd h (by simp [Event.isCfgInitialize])

theorem no_verdict_in_prep (D : Driver σ) (c : Nat) :
    Event.print msgSuccess ∉ prepEvents D c ∧ Event.print msgFailure ∉ prepEvents D c := by
  constructor
  · intro h
    have := prints_prepEvents D c _ h
    revert this
    decide
  · intro h
    have := prints_prepEvents D c _ h
    revert this
    decide

theorem prints_busy (its : List (List Event)) (hits : ∀ it ∈ its, BusyIteration it)
    (s : String) : Event.print s ∉ its.flatten := by
  intro h
  obtain ⟨d, b, hb⟩ := mem_busy_flatten its hits _ h
  simp at hb

theorem prints_compareEvents (m : Mem) (s : String) : Event.print s ∉ compareEvents m := by
  intro h
  obtain ⟨i, _, hb | hb | ⟨_, hb⟩⟩ := mem_compareEvents m _ h
  · simp at hb
  · simp at hb
  · simp [mismatchRecord] at hb

theorem msgComplete_ne :
    msgComplete ≠ msgStart ∧ msgComplete ≠ msgInit ∧ msgComplete ≠ msgConfigNotFound
    ∧ msgComplete ≠ msgInitFailed ∧ msgComplete ≠ msgFilling ∧ msgComplete ≠ msgLaunched
    ∧ msgComplete ≠ msgRxFailed ∧ msgComplete ≠ msgTxFailed := by decide

/-- A run that printed "Transfer complete. Verification..." has the shape of a
complete run. -/
theorem run_of_complete (D : Driver σ) (mem0 : Mem) (o : Outcome σ)
    (h : RunShape D mem0 o) (hmem : Event.print msgComplete ∈ o.final.trace) :
    ∃ (c : Nat) (its : List (List Event)), c ≠ 0 ∧ (∀ it ∈ its, BusyIteration it)
      ∧ o.final.trace = prepEvents D c ++
        [launchRx D.XST_SUCCESS, launchTx D.XST_SUCCESS] ++ its.flatten ++ idleIteration ++
        [Event.print msgComplete, invalidateRx] ++ compareEvents o.final.mem ++
        [verdict o.final.mem, Event.cleanup_platform]
      ∧ o.ret = some 0
      ∧ o.error_count = some (mismatchIndices o.final.mem).length := by
  obtain ⟨n1, n2, n3, n4, n5, n6, n7, n8⟩ := msgComplete_ne
  have hprep : ∀ c, Event.print msgComplete ∉ prepEvents D c := by
    intro c hc
    rcases prints_prepEvents D c _ hc with h | h | h | h
    · exact n1 h
    · exact n2 h
    · exact n5 h
    · exact n6 h
  cases h with
  | configNotFound ht hr he hm =>
    rw [ht] at hmem
    simp [lookupEvents, n1, n2, n3] at hmem
  | initFailed c st hc hst ht hr he hm =>
    rw [ht] at hmem
    simp [lookupEvents, n1, n2, n4] at hmem
  | rxFailed c st hc hst ht hr he =>
    rw [ht] at hmem
    simp [hprep, launchRx, n7] at hmem
  | txFailed c st hc hst ht hr he =>
    rw [ht] at hmem
    simp [hprep, launchRx, launchTx, n8] at hmem
  | polling c its hc hits ht hr he =>
    rw [ht] at hmem
    simp only [List.mem_append, List.mem_cons, List.not_mem_nil, or_false] at hmem
    rcases hmem with (hmem | hmem | hmem) | hmem
    · exact absurd hmem (hprep c)
    · simp [launchRx] at hmem
    · simp [launchTx] at hmem
    · exact absurd hmem (prints_busy its hits _)
  | verified c its hc hits ht hr he => exact ⟨c, its, hc, hits, ht, hr, he⟩

theorem mismatchIndices_nil_iff (m : Mem) :
    mismatchIndices m = [] ↔ ∀ i, i < 32 → rxWord m i = not32 (txWord m i) := by
  unfold mismatchIndices
  rw [List.filter_eq_nil_iff]
  constructor
  · intro h i hi
    have := h i (List.mem_range.mpr hi)
    simpa [mismatch] using this
  · intro h i hi
    have := h i (List.mem_range.mp hi)
    simp [mismatch, this]

theorem verdict_success_iff (m : Mem) :
    verdict m = Event.print msgSuccess ↔ mismatchIndices m = [] := by
  unfold verdict
  by_cases h : (mismatchIndices m).length = 0
  · rw [if_pos h]
    exact ⟨fun _ => List.length_eq_zero.mp h, fun _ => rfl⟩
  · rw [if_neg h]
    constructor
    · intro h2
      have : msgFailure = msgSuccess := by simpa using h2
      exact absurd this (by decide)
    · intro h2
      exact absurd (List.length_eq_zero.mpr h2) h

theorem verdict_failure_iff (m : Mem) :
    verdict m = Event.print msgFailure ↔ mismatchIndices m ≠ [] := by
  unfold verdict
  by_cases h : (mismatchIndices m).length = 0
  · rw [if_pos h]
    constructor
    · intro h2
      have : msgSuccess = msgFailure := by simpa using h2
      exact absurd this (by decide)
    · intro h2
      exact absurd (List.length_eq_zero.mp h) h2
  · rw [if_neg h]
    exact ⟨fun _ h2 => h (List.length_eq_zero.mpr h2), fun _ => rfl⟩

theorem verdict_props (m : Mem) :
    (verdict m).isPrintf = false ∧ (verdict m).isLoad = false
      ∧ (verdict m).isInvalidate = false ∧ (verdict m).isBusy = false
      ∧ (verdict m).isLaunch = false := by
  unfold verdict; split_ifs <;> exact ⟨rfl, rfl, rfl, rfl, rfl⟩

theorem busy_flatten_props (its : List (List Event)) (hits : ∀ it ∈ its, BusyIteration it)
    (e : Event) (h : e ∈ its.flatten) :
    e.isBusy = true ∧ e.isPrintf = false ∧ e.isLoad = false ∧ e.isInvalidate = false
      ∧ e.isLaunch = false := by
  obtain ⟨d, b, rfl⟩ := mem_busy_flatten its hits e h
  exact ⟨rfl, rfl, rfl, rfl, rfl⟩

theorem compareEvents_props (m : Mem) (e : Event) (h : e ∈ compareEvents m) :
    e.isInvalidate = false ∧ e.isBusy = false ∧ e.isLaunch = false := by
  obtain ⟨i, _, rfl | rfl | ⟨_, rfl⟩⟩ := mem_compareEvents m e h <;> exact ⟨rfl, rfl, rfl⟩

/-- The diagnostic records and the loads of a complete run. -/
theorem verified_filters (D : Driver σ) (c : Nat) (its : List (List Event)) (m : Mem)
    (hits : ∀ it ∈ its, BusyIteration it) (t : List Event)
    (ht : t = prepEvents D c ++ [launchRx D.XST_SUCCESS, launchTx D.XST_SUCCESS]
      ++ its.flatten ++ idleIteration ++ [Event.print msgComplete, invalidateRx]
      ++ compareEvents m ++ [verdict m, Event.cleanup_platform]) :
    t.filter Event.isPrintf = (mismatchIndices m).map (mismatchRecord m)
    ∧ t.filter Event.isLoad = (List.range 32).flatMap (compareLoads m) := by
  have h1 : (prepEvents D c).filter Event.isPrintf = [] :=
    filter_nil_of _ _ (fun x hx => (prepEvents_mem D c x hx).2.2.2.2)
  have h2 : (prepEvents D c).filter Event.isLoad = [] :=
    filter_nil_of _ _ (fun x hx => (prepEvents_mem D c x hx).2.1)
  have h3 : its.flatten.filter Event.isPrintf = [] :=
    filter_nil_of _ _ (fun x hx => (busy_flatten_props its hits x hx).2.1)
  have h4 : its.flatten.filter Event.isLoad = [] :=
    filter_nil_of _ _ (fun x hx => (busy_flatten_props its hits x hx).2.2.1)
  have h5 : (compareEvents m).filter Event.isPrintf
      = (mismatchIndices m).map (mismatchRecord m) :=
    filter_isPrintf_compare m (List.range 32)
  have h6 : (compareEvents m).filter Event.isLoad = (List.range 32).flatMap (compareLoads m) :=
    filter_isLoad_compare m (List.range 32)
  have h7 := (verdict_props m).1
  have h8 := (verdict_props m).2.1
  rw [ht]
  simp only [List.filter_append, h1, h2, h3, h4, h5, h6]
  constructor
  · simp [List.filter_cons, idleIteration, invalidateRx, launchRx, launchTx,
      Event.isPrintf]
    exact h7
  · simp [List.filter_cons, idleIteration, invalidateRx, launchRx, launchTx,
      Event.isLoad]
    exact h8

/-- The closing line of a complete run. -/
theorem verified_verdict (D : Driver σ) (c : Nat) (its : List (List Event)) (m : Mem)
    (hits : ∀ it ∈ its, BusyIteration it) (t : List Event)
    (ht : t = prepEvents D c ++ [launchRx D.XST_SUCCESS, launchTx D.XST_SUCCESS]
      ++ its.flatten ++ idleIteration ++ [Event.print msgComplete, invalidateRx]
      ++ compareEvents m ++ [verdict m, Event.cleanup_platform])
    (s : String) (hs : s = msgSuccess ∨ s = msgFailure) :
    t.count (Event.print s) = if verdict m = Event.print s then 1 else 0 := by
  have h1 : (prepEvents D c).count (Event.print s) = 0 := by
    rw [List.count_eq_zero]
    rcases hs with rfl | rfl
    · exact (no_verdict_in_prep D c).1
    · exact (no_verdict_in_prep D c).2
  have h2 : its.flatten.count (Event.print s) = 0 :=
    List.count_eq_zero.mpr (prints_busy its hits s)
  have h3 : (compareEvents m).count (Event.print s) = 0 :=
    List.count_eq_zero.mpr (prints_compareEvents m s)
  have h4 : msgComplete ≠ s := by
    rcases hs with rfl | rfl <;> decide
  rw [ht]
  simp only [List.count_append, h1, h2, h3]
  by_cases hv : verdict m = Event.print s
  · rw [if_pos hv, hv]
    simp [List.count_cons, idleIteration, invalidateRx, launchRx, launchTx, h4]
  · rw [if_neg hv]
    simp [List.count_cons, idleIteration, invalidateRx, launchRx, launchTx, h4, hv]

/-- Once the polling loop has been left within a budget, a larger budget gives
the same result. -/
theorem pollLoop_mono (D : Driver σ) (n k : Nat) (s : State σ)
    (h : (pollLoop D n s).2 = true) : pollLoop D (n + k) s = pollLoop D n s := by
  induction n generalizing s with
  | zero => simp [pollLoop] at h
  | succ n ih =>
    rw [show n + 1 + k = (n + k) + 1 by omega]
    unfold pollLoop at h ⊢
    simp only [] at h ⊢
    split_ifs at h ⊢ with h1 h2
    · exact ih _ h
    · exact ih _ h
    · rfl

/-- A run that returned within a budget is the same run with a larger budget. -/
theorem main_mono (D : Driver σ) (n k : Nat) (drv0 : σ) (mem0 : Mem) (r : Int)
    (h : (main D n drv0 mem0).ret = some r) :
    main D (n + k) drv0 mem0 = main D n drv0 mem0 := by
  unfold main at h ⊢
  simp only [] at h ⊢
  by_cases h1 : (callLookupConfig D (DMA_DEV_ID D) (emit (Event.print msgInit)
      (emit (Event.print msgStart)
        (emit Event.init_platform { drv := drv0, mem := mem0, trace := [] })))).1 = 0
  · rw [if_pos h1, if_pos h1]
  rw [if_neg h1] at h
  rw [if_neg h1, if_neg h1]
  generalize (callLookupConfig D (DMA_DEV_ID D) (emit (Event.print msgInit)
      (emit (Event.print msgStart)
        (emit Event.init_platform { drv := drv0, mem := mem0, trace := [] })))) = cfg at h ⊢
  by_cases h2 : (callCfgInitialize D cfg.1 cfg.2).1 ≠ D.XST_SUCCESS
  · rw [if_pos h2, if_pos h2]
  rw [if_neg h2] at h
  rw [if_neg h2, if_neg h2]
  generalize (emit (Event.print msgLaunched) (callFlushRange D RX_BUFFER_BASE TEST_LENGTH
      (callFlushRange D TX_BUFFER_BASE TEST_LENGTH (fillLoop (emit (Event.print msgFilling)
        (callIntrDisable D D.XAXIDMA_IRQ_ALL_MASK Dir.XAXIDMA_DMA_TO_DEVICE
          (callIntrDisable D D.XAXIDMA_IRQ_ALL_MASK Dir.XAXIDMA_DEVICE_TO_DMA
            (callCfgInitialize D cfg.1 cfg.2).2))))))) = s at h ⊢
  by_cases h3 : (callSimpleTransfer D RX_BUFFER_BASE TEST_LENGTH
      Dir.XAXIDMA_DEVICE_TO_DMA s).1 ≠ D.XST_SUCCESS
  · rw [if_pos h3, if_pos h3]
  rw [if_neg h3] at h
  rw [if_neg h3, if_neg h3]
  generalize (callSimpleTransfer D RX_BUFFER_BASE TEST_LENGTH
      Dir.XAXIDMA_DEVICE_TO_DMA s).2 = s1 at h ⊢
  by_cases h4 : (callSimpleTransfer D TX_BUFFER_BASE TEST_LENGTH
      Dir.XAXIDMA_DMA_TO_DEVICE s1).1 ≠ D.XST_SUCCESS
  · rw [if_pos h4, if_pos h4]
  rw [if_neg h4] at h
  rw [if_neg h4, if_neg h4]
  generalize (callSimpleTransfer D TX_BUFFER_BASE TEST_LENGTH
      Dir.XAXIDMA_DMA_TO_DEVICE s1).2 = s2 at h ⊢
  by_cases h5 : (pollLoop D n s2).2 = false
  · rw [if_pos h5] at h
    exact absurd h (by simp)
  · have h6 : (pollLoop D n s2).2 = true := by simpa using h5
    rw [pollLoop_mono D n k s2 h6]
/-! ## Properties of `main` -/

/-- C1 (flush before launch).  In every run of `main`, for every driver, every
budget of polling iterations and every initial memory: whenever the trace splits
as `pre ++ e :: post` with `e` a call of `XAxiDma_SimpleTransfer`, the part `pre`
splits as `w ++ r` where `w` contains all 64 stores of the fill loop (and they
are the only stores of `w`), `r` contains both
`Xil_DCacheFlushRange(TX_BUFFER_BASE, 128)` and
`Xil_DCacheFlushRange(RX_BUFFER_BASE, 128)`, and no store occurs in `r`, at `e`
or in `post`.  So both flushes come after the last store of the fill loop and
before every launch. -/
theorem C1_flush_before_every_launch (D : Driver σ) (budget : Nat) (drv0 : σ) (mem0 : Mem)
    (pre post : List Event) (e : Event) :
    (main D budget drv0 mem0).final.trace = pre ++ e :: post → e.isLaunch = true →
    ∃ w r, pre = w ++ r ∧ w.filter Event.isStore = fillEvents
      ∧ flushTx ∈ r ∧ flushRx ∈ r ∧ ∀ x ∈ r ++ e :: post, x.isStore = false := by
  intro hsplit he
  rcases run_rest D mem0 _ (main_shape D budget drv0 mem0) with h | ⟨c, rest, ht, hrest⟩
  · have hmem : e ∈ (main D budget drv0 mem0).final.trace := by rw [hsplit]; simp
    have := (isEarly_not_launch e (h e hmem)).1
    rw [he] at this
    exact absurd this (by simp)
  · rw [ht, prepEvents_eq, List.append_assoc] at hsplit
    obtain ⟨a, ha, hb⟩ := split_after Event.isLaunch _ _ _ _ _ hsplit
      (fun x hx => (filledEvents_mem D c x hx).2) he
    obtain ⟨a2, ha2, hb2⟩ := split_after Event.isLaunch
      [flushTx, flushRx, Event.print msgLaunched] rest a post e hb
      (by intro x hx
          simp only [List.mem_cons, List.not_mem_nil, or_false] at hx
          rcases hx with rfl | rfl | rfl <;> rfl) he
    refine ⟨filledEvents D c, a, ha, filledEvents_stores D c, ?_, ?_, ?_⟩
    · rw [ha2]; simp
    · rw [ha2]; simp
    · intro x hx
      rw [← hb] at hx
      simp only [List.mem_append, List.mem_cons, List.not_mem_nil, or_false] at hx
      rcases hx with (rfl | rfl | rfl) | hx
      · rfl
      · rfl
      · rfl
      · exact isLate_not_store x (hrest x hx)


/-- C3 (receive before send).  In every run of `main`: whenever the trace splits
as `pre ++ e :: post` with `e` a launch on `XAXIDMA_DMA_TO_DEVICE`, the receive
launch `XAxiDma_SimpleTransfer(RX_BUFFER_BASE, 128, XAXIDMA_DEVICE_TO_DMA)`
occurs in `pre` (and it returned `XST_SUCCESS`); each direction is launched at
most once; and every launch of the trace has length 128, the receive direction
with the RX buffer and the send direction with the TX buffer. -/
theorem C3_receive_launch_before_send_launch (D : Driver σ) (budget : Nat) (drv0 : σ)
    (mem0 : Mem) :
    (∀ pre e post, (main D budget drv0 mem0).final.trace = pre ++ e :: post →
      e.isLaunchOn Dir.XAXIDMA_DMA_TO_DEVICE = true → launchRx D.XST_SUCCESS ∈ pre)
    ∧ (main D budget drv0 mem0).final.trace.countP
        (Event.isLaunchOn Dir.XAXIDMA_DEVICE_TO_DMA) ≤ 1
    ∧ (main D budget drv0 mem0).final.trace.countP
        (Event.isLaunchOn Dir.XAXIDMA_DMA_TO_DEVICE) ≤ 1
    ∧ (∀ a l d st, Event.XAxiDma_SimpleTransfer a l d st
          ∈ (main D budget drv0 mem0).final.trace →
        l = 128 ∧ (d = Dir.XAXIDMA_DEVICE_TO_DMA → a = RX_BUFFER_BASE)
          ∧ (d = Dir.XAXIDMA_DMA_TO_DEVICE → a = TX_BUFFER_BASE)) := by
  have hprep : ∀ (d : Dir) (c : Nat), ∀ x ∈ prepEvents D c, x.isLaunchOn d = false :=
    fun d c x hx => isLaunchOn_false d x (prepEvents_mem D c x hx).1
  have hearly : ∀ (d : Dir) (x : Event), x.isEarly = true → x.isLaunchOn d = false :=
    fun d x hx => isLaunchOn_false d x (isEarly_props x hx).1
  have hshape := run_launches D mem0 _ (main_shape D budget drv0 mem0)
  generalize (main D budget drv0 mem0).final.trace = t at hshape ⊢
  rcases hshape with h | ⟨c, st, hst, ht⟩ | ⟨c, st, rest, ht, hrest⟩
  · refine ⟨?_, ?_, ?_, ?_⟩
    · intro pre e post hsplit he
      have hmem : e ∈ t := by rw [hsplit]; simp
      rw [hearly _ e (h e hmem)] at he
      exact absurd he (by simp)
    · rw [countP_zero _ t (fun x hx => hearly _ x (h x hx))]; omega
    · rw [countP_zero _ t (fun x hx => hearly _ x (h x hx))]; omega
    · intro a l d st hmem
      exact absurd (isEarly_props _ (h _ hmem)).1 (by simp [Event.isLaunch])
  · subst ht
    refine ⟨?_, ?_, ?_, ?_⟩
    · intro pre e post hsplit he
      have hmem : e ∈ prepEvents D c ++ [launchRx st, Event.print msgRxFailed] := by
        rw [hsplit]; simp
      simp only [List.mem_append, List.mem_cons, List.not_mem_nil, or_false] at hmem
      rcases hmem with hmem | rfl | rfl
      · rw [hprep _ c e hmem] at he; exact absurd he (by simp)
      · exact absurd he (by simp [launchRx, Event.isLaunchOn])
      · exact absurd he (by simp [Event.isLaunchOn])
    · rw [List.countP_append, countP_zero _ _ (hprep _ c)]
      simp [List.countP_cons, launchRx, Event.isLaunchOn]
    · rw [List.countP_append, countP_zero _ _ (hprep _ c)]
      simp [List.countP_cons, launchRx, Event.isLaunchOn]
    · intro a l d st2 hmem
      simp only [List.mem_append, List.mem_cons, List.not_mem_nil, or_false] at hmem
      rcases hmem with hmem | hmem | hmem
      · exact absurd (prepEvents_mem D c _ hmem).1 (by simp [Event.isLaunch])
      · simp only [launchRx, Event.XAxiDma_SimpleTransfer.injEq] at hmem
        obtain ⟨rfl, rfl, rfl, _⟩ := hmem
        simp
      · simp at hmem
  · subst ht
    have hrestL : ∀ (d : Dir), ∀ x ∈ rest, x.isLaunchOn d = false :=
      fun d x hx => isLaunchOn_false d x (hrest x hx).2
    refine ⟨?_, ?_, ?_, ?_⟩
    · intro pre e post hsplit he
      have hsplit2 : (prepEvents D c ++ [launchRx D.XST_SUCCESS]) ++ (launchTx st :: rest)
          = pre ++ e :: post := by rw [← hsplit]; simp
      obtain ⟨a, ha, _⟩ := split_after (Event.isLaunchOn Dir.XAXIDMA_DMA_TO_DEVICE) _ _ _ _ _
        hsplit2 (by
          intro x hx
          simp only [List.mem_append, List.mem_cons, List.not_mem_nil, or_false] at hx
          rcases hx with hx | rfl
          · exact hprep _ c x hx
          · simp [launchRx, Event.isLaunchOn]) he
      rw [ha]; simp
    · rw [List.countP_append, countP_zero _ _ (hprep _ c), List.countP_cons, List.countP_cons,
        countP_zero _ _ (hrestL _)]
      simp [launchRx, launchTx, Event.isLaunchOn]
    · rw [List.countP_append, countP_zero _ _ (hprep _ c), List.countP_cons, List.countP_cons,
        countP_zero _ _ (hrestL _)]
      simp [launchRx, launchTx, Event.isLaunchOn]
    · intro a l d st2 hmem
      simp only [List.mem_append, List.mem_cons] at hmem
      rcases hmem with hmem | hmem | hmem | hmem
      · exact absurd (prepEvents_mem D c _ hmem).1 (by simp [Event.isLaunch])
      · simp only [launchRx, Event.XAxiDma_SimpleTransfer.injEq] at hmem
        obtain ⟨rfl, rfl, rfl, _⟩ := hmem
        simp
      · simp only [launchTx, Event.XAxiDma_SimpleTransfer.injEq] at hmem
        obtain ⟨rfl, rfl, rfl, _⟩ := hmem
        simp
      · exact absurd (hrest _ hmem).2 (by simp [Event.isLaunch])

/-- C10 (fill loop).  For every state `s` in which the fill loop starts, whatever
its memory: afterwards `TxBufferPtr[i] = i` and `RxBufferPtr[i] = 0` for every
`i < 32`; every byte outside the two 128-byte ranges is unchanged; the two
ranges are disjoint; the loop performs exactly the 64 stores `fillEvents`, each
of them a store of `i` to `TX_BUFFER_BASE + 4 * i` or of `0` to
`RX_BUFFER_BASE + 4 * i` with `i < 32`.  And in every run of `main`, whenever
the trace splits as `pre ++ e :: post` with `e` a cache flush or a transfer
launch, the stores of `pre` are exactly those 64 stores and `post` has no
store: the loop has finished before the first flush or launch. -/
theorem C10_fill_loop_postcondition (D : Driver σ) (budget : Nat) (drv0 : σ) (mem0 : Mem)
    (s : State σ) :
    (∀ i, i < 32 → txWord (fillLoop s).mem i = i ∧ rxWord (fillLoop s).mem i = 0)
    ∧ (∀ a, ¬ (TX_BUFFER_BASE ≤ a ∧ a < TX_BUFFER_BASE + 128) →
        ¬ (RX_BUFFER_BASE ≤ a ∧ a < RX_BUFFER_BASE + 128) → (fillLoop s).mem a = s.mem a)
    ∧ TX_BUFFER_BASE + 128 ≤ RX_BUFFER_BASE
    ∧ (fillLoop s).trace = s.trace ++ fillEvents
    ∧ fillEvents.length = 64
    ∧ (∀ e ∈ fillEvents, ∃ i, i < 32 ∧ (e = Event.store (TX_BUFFER_BASE + 4 * i) i
        ∨ e = Event.store (RX_BUFFER_BASE + 4 * i) 0))
    ∧ (∀ pre e post, (main D budget drv0 mem0).final.trace = pre ++ e :: post →
        (e.isFlush = true ∨ e.isLaunch = true) →
        pre.filter Event.isStore = fillEvents ∧ ∀ x ∈ post, x.isStore = false) := by
  have hinv := fill_mem_invariant s 32 (le_refl 32)
  refine ⟨hinv.1, hinv.2, by decide, fillLoop_trace s, ?_, mem_fillEvents, ?_⟩
  · exact fillEventsUpTo_length 32
  · intro pre e post hsplit he
    have he2 : (e.isFlush || e.isLaunch) = true := by
      rcases he with h | h <;> simp [h]
    rcases run_rest D mem0 _ (main_shape D budget drv0 mem0) with h | ⟨c, rest, ht, hrest⟩
    · have hmem : e ∈ (main D budget drv0 mem0).final.trace := by rw [hsplit]; simp
      have h3 := isEarly_props e (h e hmem)
      rw [h3.1, h3.2.1] at he2
      exact absurd he2 (by simp)
    · rw [ht, prepEvents_eq, List.append_assoc] at hsplit
      obtain ⟨a, ha, hb⟩ := split_after (fun x => x.isFlush || x.isLaunch) _ _ _ _ _ hsplit
        (fun x hx => by
          have := filledEvents_mem D c x hx
          simp [this.1, this.2]) he2
      have hlate : ∀ x ∈ [flushTx, flushRx, Event.print msgLaunched] ++ rest,
          x.isStore = false := by
        intro x hx
        simp only [List.mem_append, List.mem_cons, List.not_mem_nil, or_false] at hx
        rcases hx with (rfl | rfl | rfl) | hx
        · rfl
        · rfl
        · rfl
        · exact isLate_not_store x (hrest x hx)
      rw [hb] at hlate
      constructor
      · rw [ha, List.filter_append, filledEvents_stores]
        have : a.filter Event.isStore = [] := by
          rw [List.filter_eq_nil_iff]
          intro x hx
          rw [hlate x (by simp [hx])]
          simp
        rw [this, List.append_nil]
      · intro x hx
        exact hlate x (by simp [hx])

/-- C7 (comparison loop).  For every state `s` in which the comparison loop
starts, with `tx[i]` and `rx[i]` the 32-bit words of its memory: the final
`error_count` is the number of indices `i < 32` with `rx[i] ≠ ~tx[i]`; the
events added to the trace are loads and diagnostic records only; the records
are, in increasing index order, one per mismatching index, carrying
`(i, tx[i], rx[i], ~tx[i])`; the loads are `tx[i]` then `rx[i]` for every
`i = 0, ..., 31` in order, so all 32 indices are visited; memory and driver
state are unchanged.  Here `~` flips the 32 bits: `~x = 0xFFFFFFFF - x`. -/
theorem C7_comparison_loop_counts_mismatches (s : State σ) :
    (compareLoop s).2
      = ((List.range 32).filter
          (fun i => decide (rxWord s.mem i ≠ not32 (txWord s.mem i)))).length
    ∧ (∃ evs, (compareLoop s).1.trace = s.trace ++ evs
        ∧ (∀ e ∈ evs, e.isLoad = true ∨ e.isPrintf = true)
        ∧ evs.filter Event.isPrintf
          = ((List.range 32).filter
              (fun i => decide (rxWord s.mem i ≠ not32 (txWord s.mem i)))).map
              (fun i => Event.xil_printf msgMismatch
                [i, txWord s.mem i, rxWord s.mem i, not32 (txWord s.mem i)])
        ∧ evs.filter Event.isLoad
          = (List.range 32).flatMap (fun i =>
              [Event.load (TX_BUFFER_BASE + 4 * i) (txWord s.mem i),
               Event.load (RX_BUFFER_BASE + 4 * i) (rxWord s.mem i)]))
    ∧ (compareLoop s).1.mem = s.mem
    ∧ (compareLoop s).1.drv = s.drv
    ∧ (∀ i, txWord s.mem i < 4294967296 ∧ rxWord s.mem i < 4294967296
        ∧ not32 (txWord s.mem i) = 4294967295 - txWord s.mem i) := by
  refine ⟨compareLoop_count s, ⟨compareEvents s.mem, compareLoop_trace s, ?_, ?_, ?_⟩,
    compareLoop_mem s, compareLoop_drv s, ?_⟩
  · intro e he
    obtain ⟨i, _, rfl | rfl | ⟨_, rfl⟩⟩ := mem_compareEvents _ e he
    · exact Or.inl rfl
    · exact Or.inl rfl
    · exact Or.inr rfl
  · exact filter_isPrintf_compare s.mem (List.range 32)
  · exact filter_isLoad_compare s.mem (List.range 32)
  · intro i
    exact ⟨read32_lt _ _, read32_lt _ _, not32_eq_sub _ (read32_lt _ _)⟩

/-- C4 (configuration not found).  If the call of `XAxiDma_LookupConfig` made by
the run returned `NULL`, then `main` returns `XST_FAILURE`; the whole trace is
`init_platform`, the two opening messages, the lookup and the message
"Error: DMA configuration not found", so that after the lookup there is no
`XAxiDma_CfgInitialize`, no store, no load, no flush, no invalidate, no launch
and no busy poll; and the memory, in particular every word of both buffers, is
what it was before the run. -/
theorem C4_null_config_aborts_untouched (D : Driver σ) (budget : Nat) (drv0 : σ)
    (mem0 : Mem) (devId : Nat)
    (h : Event.XAxiDma_LookupConfig devId 0 ∈ (main D budget drv0 mem0).final.trace) :
    (main D budget drv0 mem0).ret = some D.XST_FAILURE
    ∧ (main D budget drv0 mem0).final.trace
        = [Event.init_platform, Event.print msgStart, Event.print msgInit,
           Event.XAxiDma_LookupConfig (DMA_DEV_ID D) 0, Event.print msgConfigNotFound]
    ∧ (∀ e ∈ (main D budget drv0 mem0).final.trace,
        e.isCfgInitialize = false ∧ e.isStore = false ∧ e.isLoad = false
        ∧ e.isFlush = false ∧ e.isInvalidate = false ∧ e.isLaunch = false
        ∧ e.isBusy = false)
    ∧ (main D budget drv0 mem0).final.mem = mem0
    ∧ (∀ i, txWord (main D budget drv0 mem0).final.mem i = txWord mem0 i
        ∧ rxWord (main D budget drv0 mem0).final.mem i = rxWord mem0 i) := by
  obtain ⟨ht, hr, _, hm⟩ :=
    run_of_null_lookup D mem0 _ (main_shape D budget drv0 mem0) devId h
  refine ⟨hr, ht, ?_, hm, fun i => by rw [hm]; exact ⟨rfl, rfl⟩⟩
  intro e he
  rw [ht] at he
  simp only [lookupEvents, List.mem_append, List.mem_cons, List.not_mem_nil, or_false] at he
  rcases he with (rfl | rfl | rfl | rfl) | rfl <;> exact ⟨rfl, rfl, rfl, rfl, rfl, rfl, rfl⟩

/-- C5 (exit status).  Let `XST_FAILURE` be distinct from 0.  For every run of
`main` that returns a value `r`: `r = 0` exactly when the result-bearing driver
calls of the run are the lookup with a non-null pointer, the initialisation,
the receive launch and the send launch, each with status `XST_SUCCESS`.  A run
whose lookup returned `NULL`, or whose initialisation, receive launch or send
launch returned a status other than `XST_SUCCESS`, returns `XST_FAILURE`.  A
run that reached the comparison returns 0 whatever the final `error_count`.
And a run that returns within a budget of polling iterations is the same run
for every larger budget. -/
theorem C5_exit_status (D : Driver σ) (budget : Nat) (drv0 : σ) (mem0 : Mem)
    (hF : D.XST_FAILURE ≠ 0) :
    (∀ r, (main D budget drv0 mem0).ret = some r →
      (r = 0 ↔ ∃ c, c ≠ 0 ∧ (main D budget drv0 mem0).final.trace.filter Event.isCall
        = [Event.XAxiDma_LookupConfig (DMA_DEV_ID D) c,
           Event.XAxiDma_CfgInitialize c D.XST_SUCCESS,
           launchRx D.XST_SUCCESS, launchTx D.XST_SUCCESS]))
    ∧ (∀ i, Event.XAxiDma_LookupConfig i 0 ∈ (main D budget drv0 mem0).final.trace →
        (main D budget drv0 mem0).ret = some D.XST_FAILURE)
    ∧ (∀ p s, s ≠ D.XST_SUCCESS →
        Event.XAxiDma_CfgInitialize p s ∈ (main D budget drv0 mem0).final.trace →
        (main D budget drv0 mem0).ret = some D.XST_FAILURE)
    ∧ (∀ a l d s, s ≠ D.XST_SUCCESS →
        Event.XAxiDma_SimpleTransfer a l d s ∈ (main D budget drv0 mem0).final.trace →
        (main D budget drv0 mem0).ret = some D.XST_FAILURE)
    ∧ (∀ n, (main D budget drv0 mem0).error_count = some n →
        (main D budget drv0 mem0).ret = some 0)
    ∧ (∀ r k, (main D budget drv0 mem0).ret = some r →
        main D (budget + k) drv0 mem0 = main D budget drv0 mem0) := by
  have hs := main_shape D budget drv0 mem0
  refine ⟨?_, ?_, ?_, ?_, ?_, fun r k h => main_mono D budget k drv0 mem0 r h⟩
  · intro r hret
    cases hs with
    | configNotFound ht hr he hm =>
      rw [hr] at hret
      have hrF : r = D.XST_FAILURE := (Option.some.inj hret).symm
      rw [calls_configNotFound D _ ht]
      constructor
      · intro h0; exact absurd (hrF ▸ h0) hF
      · rintro ⟨c, _, h⟩; simp at h
    | initFailed c st hc hst ht hr he hm =>
      rw [hr] at hret
      have hrF : r = D.XST_FAILURE := (Option.some.inj hret).symm
      rw [calls_initFailed D _ c st ht]
      constructor
      · intro h0; exact absurd (hrF ▸ h0) hF
      · rintro ⟨c, _, h⟩; simp at h
    | rxFailed c st hc hst ht hr he =>
      rw [hr] at hret
      have hrF : r = D.XST_FAILURE := (Option.some.inj hret).symm
      rw [calls_rxFailed D _ c st ht]
      constructor
      · intro h0; exact absurd (hrF ▸ h0) hF
      · rintro ⟨c, _, h⟩; simp at h
    | txFailed c st hc hst ht hr he =>
      rw [hr] at hret
      have hrF : r = D.XST_FAILURE := (Option.some.inj hret).symm
      rw [calls_txFailed D _ c st ht]
      constructor
      · intro h0; exact absurd (hrF ▸ h0) hF
      · rintro ⟨c2, _, h⟩
        simp [launchTx] at h
        exact absurd h.2 hst
    | polling c its hc hits ht hr he =>
      rw [hr] at hret
      exact absurd hret (by simp)
    | verified c its hc hits ht hr he =>
      rw [hr] at hret
      have hr0 : r = 0 := (Option.some.inj hret).symm
      exact ⟨fun _ => ⟨c, hc, calls_verified D _ c its _ hits ht⟩, fun _ => hr0⟩
  · intro i h
    exact (run_of_null_lookup D mem0 _ hs i h).2.1
  · intro p s hne h
    exact (run_of_failed_init D mem0 _ hs p s hne h).2.2.1
  · intro a l d s hne h
    cases d with
    | XAXIDMA_DMA_TO_DEVICE =>
      obtain ⟨_, _, c, _, _, hr, _⟩ := run_of_failed_tx D mem0 _ hs a l s hne h
      exact hr
    | XAXIDMA_DEVICE_TO_DMA =>
      obtain ⟨_, _, c, _, _, hr, _⟩ := run_of_failed_rx D mem0 _ hs a l s hne h
      exact hr
  · intro n hn
    cases hs with
    | configNotFound ht hr he hm => rw [he] at hn; exact absurd hn (by simp)
    | initFailed c st hc hst ht hr he hm => rw [he] at hn; exact absurd hn (by simp)
    | rxFailed c st hc hst ht hr he => rw [he] at hn; exact absurd hn (by simp)
    | txFailed c st hc hst ht hr he => rw [he] at hn; exact absurd hn (by simp)
    | polling c its hc hits ht hr he => rw [he] at hn; exact absurd hn (by simp)
    | verified c its hc hits ht hr he => exact hr

/-- C6 (fatal errors abort at once).  In every run of `main`:
* if the lookup returned `NULL`, the trace ends with that lookup followed by
  the message "Error: DMA configuration not found", the lookup is called once
  and `main` returns `XST_FAILURE`;
* if `XAxiDma_CfgInitialize` returned a status other than `XST_SUCCESS`, the
  trace is the opening events, the lookup, that call and the message
  "Error: DMA initialization failed"; the call is made once, nothing is stored,
  flushed or launched, memory is unchanged and `main` returns `XST_FAILURE`;
* if the receive launch returned a status other than `XST_SUCCESS`, the trace
  ends with that launch followed by "Error: RX launch failed"; it is the only
  launch of the run (the send launch is never submitted); there is no busy
  poll, no invalidate, no load, no diagnostic record, neither the SUCCESS nor
  the FAILURE line, and `main` returns `XST_FAILURE`;
* if the send launch returned a status other than `XST_SUCCESS`, the trace ends
  with that launch followed by "Error: TX launch failed"; each direction was
  launched once; there is no busy poll, no invalidate, no load, no diagnostic
  record, neither the SUCCESS nor the FAILURE line, and `main` returns
  `XST_FAILURE`;
* the four error messages are pairwise distinct. -/
theorem C6_fatal_errors_abort (D : Driver σ) (budget : Nat) (drv0 : σ) (mem0 : Mem) :
    (∀ i, Event.XAxiDma_LookupConfig i 0 ∈ (main D budget drv0 mem0).final.trace →
      (∃ pre, (main D budget drv0 mem0).final.trace
        = pre ++ [Event.XAxiDma_LookupConfig i 0, Event.print msgConfigNotFound])
      ∧ (main D budget drv0 mem0).final.trace.countP Event.isLookup = 1
      ∧ (main D budget drv0 mem0).ret = some D.XST_FAILURE)
    ∧ (∀ p s, s ≠ D.XST_SUCCESS →
      Event.XAxiDma_CfgInitialize p s ∈ (main D budget drv0 mem0).final.trace →
      (main D budget drv0 mem0).final.trace
        = [Event.init_platform, Event.print msgStart, Event.print msgInit,
           Event.XAxiDma_LookupConfig (DMA_DEV_ID D) p,
           Event.XAxiDma_CfgInitialize p s, Event.print msgInitFailed]
      ∧ (main D budget drv0 mem0).final.trace.countP Event.isCfgInitialize = 1
      ∧ (∀ e ∈ (main D budget drv0 mem0).final.trace,
          e.isStore = false ∧ e.isFlush = false ∧ e.isLaunch = false)
      ∧ (main D budget drv0 mem0).final.mem = mem0
      ∧ (main D budget drv0 mem0).ret = some D.XST_FAILURE)
    ∧ (∀ a l s, s ≠ D.XST_SUCCESS →
      Event.XAxiDma_SimpleTransfer a l Dir.XAXIDMA_DEVICE_TO_DMA s
        ∈ (main D budget drv0 mem0).final.trace →
      (∃ pre, (main D budget drv0 mem0).final.trace
        = pre ++ [Event.XAxiDma_SimpleTransfer a l Dir.XAXIDMA_DEVICE_TO_DMA s,
                  Event.print msgRxFailed])
      ∧ (main D budget drv0 mem0).final.trace.countP Event.isLaunch = 1
      ∧ (∀ e ∈ (main D budget drv0 mem0).final.trace,
          e.isLaunchOn Dir.XAXIDMA_DMA_TO_DEVICE = false ∧ e.isBusy = false
          ∧ e.isInvalidate = false ∧ e.isLoad = false ∧ e.isPrintf = false)
      ∧ Event.print msgSuccess ∉ (main D budget drv0 mem0).final.trace
      ∧ Event.print msgFailure ∉ (main D budget drv0 mem0).final.trace
      ∧ (main D budget drv0 mem0).ret = some D.XST_FAILURE)
    ∧ (∀ a l s, s ≠ D.XST_SUCCESS →
      Event.XAxiDma_SimpleTransfer a l Dir.XAXIDMA_DMA_TO_DEVICE s
        ∈ (main D budget drv0 mem0).final.trace →
      (∃ pre, (main D budget drv0 mem0).final.trace
        = pre ++ [Event.XAxiDma_SimpleTransfer a l Dir.XAXIDMA_DMA_TO_DEVICE s,
                  Event.print msgTxFailed])
      ∧ (main D budget drv0 mem0).final.trace.countP
          (Event.isLaunchOn Dir.XAXIDMA_DMA_TO_DEVICE) = 1
      ∧ (main D budget drv0 mem0).final.trace.countP
          (Event.isLaunchOn Dir.XAXIDMA_DEVICE_TO_DMA) = 1
      ∧ (∀ e ∈ (main D budget drv0 mem0).final.trace,
          e.isBusy = false ∧ e.isInvalidate = false ∧ e.isLoad = false
          ∧ e.isPrintf = false)
      ∧ Event.print msgSuccess ∉ (main D budget drv0 mem0).final.trace
      ∧ Event.print msgFailure ∉ (main D budget drv0 mem0).final.trace
      ∧ (main D budget drv0 mem0).ret = some D.XST_FAILURE)
    ∧ [msgConfigNotFound, msgInitFailed, msgRxFailed, msgTxFailed].Nodup := by
  have hs := main_shape D budget drv0 mem0
  refine ⟨?_, ?_, ?_, ?_, by decide⟩
  · intro i h
    have hi : i = DMA_DEV_ID D := by
      have hf : Event.XAxiDma_LookupConfig i 0
          ∈ (main D budget drv0 mem0).final.trace.filter Event.isCall :=
        List.mem_filter.mpr ⟨h, rfl⟩
      rw [calls_configNotFound D _ (run_of_null_lookup D mem0 _ hs i h).1] at hf
      simpa using hf
    obtain ⟨ht, hr, _, _⟩ := run_of_null_lookup D mem0 _ hs i h
    refine ⟨⟨[Event.init_platform, Event.print msgStart, Event.print msgInit], ?_⟩, ?_, hr⟩
    · rw [ht, hi]; rfl
    · rw [ht]; rfl
  · intro p s hne h
    obtain ⟨_, ht, hr, _, hm⟩ := run_of_failed_init D mem0 _ hs p s hne h
    refine ⟨by rw [ht]; rfl, by rw [ht]; rfl, ?_, hm, hr⟩
    intro e he
    rw [ht] at he
    simp only [lookupEvents, List.mem_append, List.mem_cons, List.not_mem_nil, or_false]
      at he
    rcases he with (rfl | rfl | rfl | rfl) | rfl | rfl <;> exact ⟨rfl, rfl, rfl⟩
  · intro a l s hne h
    obtain ⟨rfl, rfl, c, _, ht, hr, _⟩ := run_of_failed_rx D mem0 _ hs a l s hne h
    refine ⟨⟨prepEvents D c, by rw [ht]; rfl⟩, ?_, ?_, ?_, ?_, hr⟩
    · rw [countP_via_calls _ isLaunch_isCall, calls_rxFailed D _ c s ht]; rfl
    · intro e he
      rw [ht] at he
      simp only [List.mem_append, List.mem_cons, List.not_mem_nil, or_false] at he
      rcases he with he | rfl | rfl
      · have := prepEvents_mem D c e he
        exact ⟨isLaunchOn_false _ e this.1, this.2.2.2.1, this.2.2.1, this.2.1,
          this.2.2.2.2⟩
      · exact ⟨rfl, rfl, rfl, rfl, rfl⟩
      · exact ⟨rfl, rfl, rfl, rfl, rfl⟩
    · rw [ht]
      intro he
      simp only [List.mem_append, List.mem_cons, List.not_mem_nil, or_false] at he
      rcases he with he | he | he
      · exact (no_verdict_in_prep D c).1 he
      · simp [launchRx] at he
      · revert he; decide
    · rw [ht]
      intro he
      simp only [List.mem_append, List.mem_cons, List.not_mem_nil, or_false] at he
      rcases he with he | he | he
      · exact (no_verdict_in_prep D c).2 he
      · simp [launchRx] at he
      · revert he; decide
  · intro a l s hne h
    obtain ⟨rfl, rfl, c, _, ht, hr, _⟩ := run_of_failed_tx D mem0 _ hs a l s hne h
    refine ⟨⟨prepEvents D c ++ [launchRx D.XST_SUCCESS], by rw [ht]; simp [launchTx]⟩,
      ?_, ?_, ?_, ?_, ?_, hr⟩
    · rw [countP_via_calls _ (isLaunchOn_isCall _), calls_txFailed D _ c s ht]; rfl
    · rw [countP_via_calls _ (isLaunchOn_isCall _), calls_txFailed D _ c s ht]; rfl
    · intro e he
      rw [ht] at he
      simp only [List.mem_append, List.mem_cons, List.not_mem_nil, or_false] at he
      rcases he with he | rfl | rfl | rfl
      · have := prepEvents_mem D c e he
        exact ⟨this.2.2.2.1, this.2.2.1, this.2.1, this.2.2.2.2⟩
      · exact ⟨rfl, rfl, rfl, rfl⟩
      · exact ⟨rfl, rfl, rfl, rfl⟩
      · exact ⟨rfl, rfl, rfl, rfl⟩
    · rw [ht]
      intro he
      simp only [List.mem_append, List.mem_cons, List.not_mem_nil, or_false] at he
      rcases he with he | he | he | he
      · exact (no_verdict_in_prep D c).1 he
      · simp [launchRx] at he
      · simp [launchTx] at he
      · revert he; decide
    · rw [ht]
      intro he
      simp only [List.mem_append, List.mem_cons, List.not_mem_nil, or_false] at he
      rcases he with he | he | he | he
      · exact (no_verdict_in_prep D c).2 he
      · simp [launchRx] at he
      · simp [launchTx] at he
      · revert he; decide

/-- C2 (invalidate after both channels idle, before any read).  In every run of
`main` that reaches verification (it printed "Transfer complete.
Verification..."), the trace is
`pre ++ [launchRx, launchTx] ++ polls ++ [Busy(DMA_TO_DEVICE) = 0,
Busy(DEVICE_TO_DMA) = 0, "Transfer complete...", Xil_DCacheInvalidateRange(
RX_BUFFER_BASE, 128)] ++ post` where: `polls` is a sequence of iterations of the
polling loop in each of which a channel answered busy; `pre` has no launch, no
busy poll, no load and no invalidate; `polls` consists of busy polls only;
`post` has no invalidate, no busy poll and no launch, and its loads are exactly
the loads `TxBufferPtr[i]`, `RxBufferPtr[i]` of the comparison loop for
`i = 0, ..., 31`.  Hence the invalidate is called exactly once, right after the
iteration in which both channels answered idle, before every load of the run,
and no load lies between the launches and the invalidate. -/
theorem C2_invalidate_after_idle_before_reads (D : Driver σ) (budget : Nat) (drv0 : σ)
    (mem0 : Mem)
    (h : Event.print msgComplete ∈ (main D budget drv0 mem0).final.trace) :
    ∃ (pre : List Event) (its : List (List Event)) (post : List Event),
      (main D budget drv0 mem0).final.trace
        = pre ++ [launchRx D.XST_SUCCESS, launchTx D.XST_SUCCESS] ++ its.flatten
          ++ [Event.XAxiDma_Busy Dir.XAXIDMA_DMA_TO_DEVICE 0,
              Event.XAxiDma_Busy Dir.XAXIDMA_DEVICE_TO_DMA 0,
              Event.print msgComplete,
              Event.Xil_DCacheInvalidateRange RX_BUFFER_BASE 128] ++ post
      ∧ (∀ it ∈ its, BusyIteration it)
      ∧ (∀ e ∈ pre, e.isLaunch = false ∧ e.isBusy = false ∧ e.isLoad = false
          ∧ e.isInvalidate = false)
      ∧ (∀ e ∈ its.flatten, e.isBusy = true)
      ∧ (∀ e ∈ post, e.isInvalidate = false ∧ e.isBusy = false ∧ e.isLaunch = false)
      ∧ post.filter Event.isLoad = (List.range 32).flatMap (fun i =>
          [Event.load (TX_BUFFER_BASE + 4 * i) (txWord (main D budget drv0 mem0).final.mem i),
           Event.load (RX_BUFFER_BASE + 4 * i) (rxWord (main D budget drv0 mem0).final.mem i)])
      ∧ (main D budget drv0 mem0).final.trace.countP Event.isInvalidate = 1 := by
  obtain ⟨c, its, _, hits, ht, _, _⟩ :=
    run_of_complete D mem0 _ (main_shape D budget drv0 mem0) h
  generalize (main D budget drv0 mem0).final.mem = m at ht ⊢
  have hpre : ∀ e ∈ prepEvents D c, e.isLaunch = false ∧ e.isBusy = false
      ∧ e.isLoad = false ∧ e.isInvalidate = false := fun e he =>
    have := prepEvents_mem D c e he
    ⟨this.1, this.2.2.2.1, this.2.1, this.2.2.1⟩
  have hpost : ∀ e ∈ compareEvents m ++ [verdict m, Event.cleanup_platform],
      e.isInvalidate = false ∧ e.isBusy = false ∧ e.isLaunch = false := by
    intro e he
    simp only [List.mem_append, List.mem_cons, List.not_mem_nil, or_false] at he
    rcases he with he | rfl | rfl
    · exact compareEvents_props m e he
    · exact ⟨(verdict_props m).2.2.1, (verdict_props m).2.2.2.1, (verdict_props m).2.2.2.2⟩
    · exact ⟨rfl, rfl, rfl⟩
  refine ⟨prepEvents D c, its, compareEvents m ++ [verdict m, Event.cleanup_platform],
    ?_, hits, hpre, fun e he => (busy_flatten_props its hits e he).1, hpost, ?_, ?_⟩
  · rw [ht]
    simp [idleIteration, invalidateRx]
  · have h6 : (compareEvents m).filter Event.isLoad
        = (List.range 32).flatMap (compareLoads m) := filter_isLoad_compare m (List.range 32)
    have h7 : [verdict m, Event.cleanup_platform].filter Event.isLoad = [] :=
      filter_nil_of _ _ (fun x hx => by
        simp only [List.mem_cons, List.not_mem_nil, or_false] at hx
        rcases hx with rfl | rfl
        · exact (verdict_props m).2.1
        · rfl)
    rw [List.filter_append, h6, h7, List.append_nil]
    rfl
  · rw [ht]
    simp only [List.countP_append,
      countP_zero _ _ (fun e he => (hpre e he).2.2.2),
      countP_zero _ _ (fun e he => (busy_flatten_props its hits e he).2.2.2.1),
      countP_zero _ _ (fun e he => (compareEvents_props m e he).1)]
    simp [List.countP_cons, idleIteration, invalidateRx, launchRx, launchTx,
      Event.isInvalidate]
    exact (verdict_props m).2.2.1

/-- C8 (the closing line).  In every run of `main` that reaches verification,
with `sent[i]` and `received[i]` the words loaded by the comparison loop (the
loads of the trace are exactly `TxBufferPtr[i]`, `RxBufferPtr[i]` for
`i = 0, ..., 31`, read from the final memory): the SUCCESS line is printed if
and only if `received[i] = ~sent[i]` for every `i < 32`; the FAILURE line is
printed if and only if that fails; the two lines together are printed exactly
once; and the SUCCESS line is printed exactly when `error_count` is 0, where
`error_count` is the number of mismatching indices. -/
theorem C8_success_iff_all_inverted (D : Driver σ) (budget : Nat) (drv0 : σ) (mem0 : Mem)
    (h : Event.print msgComplete ∈ (main D budget drv0 mem0).final.trace) :
    (main D budget drv0 mem0).final.trace.filter Event.isLoad
      = (List.range 32).flatMap (fun i =>
          [Event.load (TX_BUFFER_BASE + 4 * i) (txWord (main D budget drv0 mem0).final.mem i),
           Event.load (RX_BUFFER_BASE + 4 * i) (rxWord (main D budget drv0 mem0).final.mem i)])
    ∧ (Event.print msgSuccess ∈ (main D budget drv0 mem0).final.trace ↔
        ∀ i, i < 32 → rxWord (main D budget drv0 mem0).final.mem i
          = not32 (txWord (main D budget drv0 mem0).final.mem i))
    ∧ (Event.print msgFailure ∈ (main D budget drv0 mem0).final.trace ↔
        ¬ ∀ i, i < 32 → rxWord (main D budget drv0 mem0).final.mem i
          = not32 (txWord (main D budget drv0 mem0).final.mem i))
    ∧ (main D budget drv0 mem0).final.trace.count (Event.print msgSuccess)
        + (main D budget drv0 mem0).final.trace.count (Event.print msgFailure) = 1
    ∧ (Event.print msgSuccess ∈ (main D budget drv0 mem0).final.trace ↔
        (main D budget drv0 mem0).error_count = some 0)
    ∧ (main D budget drv0 mem0).error_count
        = some ((List.range 32).filter (fun i =>
            decide (rxWord (main D budget drv0 mem0).final.mem i
              ≠ not32 (txWord (main D budget drv0 mem0).final.mem i)))).length := by
  obtain ⟨c, its, _, hits, ht, _, he⟩ :=
    run_of_complete D mem0 _ (main_shape D budget drv0 mem0) h
  generalize (main D budget drv0 mem0).final.mem = m at ht he ⊢
  generalize (main D budget drv0 mem0).final.trace = t at ht ⊢
  generalize (main D budget drv0 mem0).error_count = ec at he ⊢
  have hS := verified_verdict D c its m hits t ht msgSuccess (Or.inl rfl)
  have hF := verified_verdict D c its m hits t ht msgFailure (Or.inr rfl)
  have hmemS : Event.print msgSuccess ∈ t ↔ mismatchIndices m = [] := by
    rw [← List.count_pos_iff, hS, ← verdict_success_iff]
    by_cases hv : verdict m = Event.print msgSuccess <;> simp [hv]
  have hmemF : Event.print msgFailure ∈ t ↔ mismatchIndices m ≠ [] := by
    rw [← List.count_pos_iff, hF, ← verdict_failure_iff]
    by_cases hv : verdict m = Event.print msgFailure <;> simp [hv]
  refine ⟨(verified_filters D c its m hits t ht).2, ?_, ?_, ?_, ?_, he⟩
  · rw [hmemS, mismatchIndices_nil_iff]
  · rw [hmemF, ← mismatchIndices_nil_iff]
  · rw [hS, hF]
    by_cases hv : mismatchIndices m = []
    · rw [if_pos ((verdict_success_iff m).mpr hv),
        if_neg (fun h2 => (verdict_failure_iff m).mp h2 hv)]
    · rw [if_neg (fun h2 => hv ((verdict_success_iff m).mp h2)),
        if_pos ((verdict_failure_iff m).mpr hv)]
  · rw [hmemS, he]
    constructor
    · intro h2; rw [h2]; rfl
    · intro h2
      exact List.length_eq_zero.mp (Option.some.inj h2)

/-- C9 (an engine that copies TX to RX is detected).  A 32-bit word never
equals its complement.  In every run of `main` that reaches verification with
`RxBufferPtr[i] = TxBufferPtr[i]` for every `i < 32` in the memory that the
comparison loop reads: every index mismatches; the diagnostic records of the
trace are, for `i = 0, ..., 31` in order, `(i, tx[i], tx[i], ~tx[i])`, 32
records in all; `error_count` is 32; the FAILURE line is printed and the
SUCCESS line is not.  If moreover `TxBufferPtr[i] = i` (the pattern written by
the fill loop), record `i` is `(i, i, i, 0xFFFFFFFF - i)`. -/
theorem C9_copy_engine_detected (D : Driver σ) (budget : Nat) (drv0 : σ) (mem0 : Mem)
    (h : Event.print msgComplete ∈ (main D budget drv0 mem0).final.trace)
    (hcopy : ∀ i, i < 32 → rxWord (main D budget drv0 mem0).final.mem i
      = txWord (main D budget drv0 mem0).final.mem i) :
    (∀ x, x < 4294967296 → x ≠ not32 x)
    ∧ (∀ i, i < 32 → rxWord (main D budget drv0 mem0).final.mem i
        ≠ not32 (txWord (main D budget drv0 mem0).final.mem i))
    ∧ (main D budget drv0 mem0).final.trace.filter Event.isPrintf
        = (List.range 32).map (fun i => Event.xil_printf msgMismatch
            [i, txWord (main D budget drv0 mem0).final.mem i,
             txWord (main D budget drv0 mem0).final.mem i,
             not32 (txWord (main D budget drv0 mem0).final.mem i)])
    ∧ ((main D budget drv0 mem0).final.trace.filter Event.isPrintf).length = 32
    ∧ (main D budget drv0 mem0).error_count = some 32
    ∧ Event.print msgFailure ∈ (main D budget drv0 mem0).final.trace
    ∧ Event.print msgSuccess ∉ (main D budget drv0 mem0).final.trace
    ∧ ((∀ i, i < 32 → txWord (main D budget drv0 mem0).final.mem i = i) →
        (main D budget drv0 mem0).final.trace.filter Event.isPrintf
          = (List.range 32).map (fun i => Event.xil_printf msgMismatch
              [i, i, i, 4294967295 - i])) := by
  obtain ⟨c, its, _, hits, ht, _, he⟩ :=
    run_of_complete D mem0 _ (main_shape D budget drv0 mem0) h
  generalize (main D budget drv0 mem0).final.mem = m at ht he hcopy ⊢
  generalize (main D budget drv0 mem0).final.trace = t at ht ⊢
  generalize (main D budget drv0 mem0).error_count = ec at he ⊢
  have hne : ∀ i, i < 32 → rxWord m i ≠ not32 (txWord m i) := by
    intro i hi
    rw [hcopy i hi]
    exact not32_ne_self _ (read32_lt _ _)
  have hidx : mismatchIndices m = List.range 32 := by
    show List.filter (mismatch m) (List.range 32) = List.range 32
    rw [List.filter_eq_self]
    intro i hi
    simp [mismatch, hne i (List.mem_range.mp hi)]
  have hrec : t.filter Event.isPrintf = (List.range 32).map (fun i =>
      Event.xil_printf msgMismatch [i, txWord m i, txWord m i, not32 (txWord m i)]) := by
    rw [(verified_filters D c its m hits t ht).1, hidx]
    apply List.map_congr_left
    intro i hi
    simp [mismatchRecord, hcopy i (List.mem_range.mp hi)]
  have hnil : mismatchIndices m ≠ [] := by rw [hidx]; decide
  have hS := verified_verdict D c its m hits t ht msgSuccess (Or.inl rfl)
  have hF := verified_verdict D c its m hits t ht msgFailure (Or.inr rfl)
  refine ⟨not32_ne_self, hne, hrec, by rw [hrec]; simp, by rw [he, hidx]; rfl, ?_, ?_, ?_⟩
  · rw [← List.count_pos_iff, hF, if_pos ((verdict_failure_iff m).mpr hnil)]
    exact Nat.one_pos
  · rw [← List.count_pos_iff, hS, if_neg (fun h2 => hnil ((verdict_success_iff m).mp h2))]
    exact Nat.lt_irrefl 0
  · intro htx
    rw [hrec]
    apply List.map_congr_left
    intro i hi
    have := htx i (List.mem_range.mp hi)
    rw [this, not32_eq_sub i (by have := List.mem_range.mp hi; omega)]

/-! ## Concrete runs -/

set_option maxRecDepth 100000

/-- C1 at a concrete run: the receive launch of the run with the design's
accelerator. -/
theorem C1_witness :
    invertRun.final.trace
      = List.take 75 invertRun.final.trace ++ launchRx 0 :: List.drop 76 invertRun.final.trace
    ∧ (launchRx 0).isLaunch = true
    ∧ ∃ w r, List.take 75 invertRun.final.trace = w ++ r
      ∧ w.filter Event.isStore = fillEvents
      ∧ flushTx ∈ r ∧ flushRx ∈ r
      ∧ ∀ x ∈ r ++ launchRx 0 :: List.drop 76 invertRun.final.trace, x.isStore = false :=
  ⟨by decide, rfl,
    C1_flush_before_every_launch invertDriver 4 2 zeroMem _ _ _ (by decide) rfl⟩

/-- C2 at a concrete run: the run with the design's accelerator reaches
verification after two busy iterations of the polling loop. -/
theorem C2_witness :
    Event.print msgComplete ∈ invertRun.final.trace
    ∧ ∃ (pre : List Event) (its : List (List Event)) (post : List Event),
      invertRun.final.trace
        = pre ++ [launchRx 0, launchTx 0] ++ its.flatten
          ++ [Event.XAxiDma_Busy Dir.XAXIDMA_DMA_TO_DEVICE 0,
              Event.XAxiDma_Busy Dir.XAXIDMA_DEVICE_TO_DMA 0,
              Event.print msgComplete,
              Event.Xil_DCacheInvalidateRange RX_BUFFER_BASE 128] ++ post
      ∧ (∀ it ∈ its, BusyIteration it)
      ∧ (∀ e ∈ pre, e.isLaunch = false ∧ e.isBusy = false ∧ e.isLoad = false
          ∧ e.isInvalidate = false)
      ∧ (∀ e ∈ its.flatten, e.isBusy = true)
      ∧ (∀ e ∈ post, e.isInvalidate = false ∧ e.isBusy = false ∧ e.isLaunch = false)
      ∧ post.filter Event.isLoad = (List.range 32).flatMap (fun i =>
          [Event.load (TX_BUFFER_BASE + 4 * i) (txWord invertRun.final.mem i),
           Event.load (RX_BUFFER_BASE + 4 * i) (rxWord invertRun.final.mem i)])
      ∧ invertRun.final.trace.countP Event.isInvalidate = 1 :=
  ⟨by decide, C2_invalidate_after_idle_before_reads invertDriver 4 2 zeroMem (by decide)⟩

/-- C3 at a concrete run: the send launch of the run with the design's
accelerator comes after the receive launch. -/
theorem C3_witness :
    invertRun.final.trace
      = List.take 76 invertRun.final.trace ++ launchTx 0 :: List.drop 77 invertRun.final.trace
    ∧ launchRx 0 ∈ List.take 76 invertRun.final.trace :=
  ⟨by decide,
    (C3_receive_launch_before_send_launch invertDriver 4 2 zeroMem).1
      (List.take 76 invertRun.final.trace) (launchTx 0)
      (List.drop 77 invertRun.final.trace) (by decide) rfl⟩

/-- C4 at a concrete run: the driver whose lookup returns `NULL`. -/
theorem C4_witness :
    Event.XAxiDma_LookupConfig 0 0 ∈ (main nullDriver 4 2 zeroMem).final.trace
    ∧ (main nullDriver 4 2 zeroMem).ret = some 1
    ∧ (main nullDriver 4 2 zeroMem).final.trace
        = [Event.init_platform, Event.print msgStart, Event.print msgInit,
           Event.XAxiDma_LookupConfig 0 0, Event.print msgConfigNotFound]
    ∧ (∀ e ∈ (main nullDriver 4 2 zeroMem).final.trace,
        e.isCfgInitialize = false ∧ e.isStore = false ∧ e.isLoad = false
        ∧ e.isFlush = false ∧ e.isInvalidate = false ∧ e.isLaunch = false
        ∧ e.isBusy = false)
    ∧ (main nullDriver 4 2 zeroMem).final.mem = zeroMem
    ∧ (∀ i, txWord (main nullDriver 4 2 zeroMem).final.mem i = txWord zeroMem i
        ∧ rxWord (main nullDriver 4 2 zeroMem).final.mem i = rxWord zeroMem i) :=
  ⟨by decide, C4_null_config_aborts_untouched nullDriver 4 2 zeroMem 0 (by decide)⟩

/-- C5 at concrete runs: with `XST_FAILURE = 1`, the run with the copying
engine finds 32 mismatches and returns 0, its four driver calls having
succeeded; the run whose receive launch fails returns 1. -/
theorem C5_witness :
    copyDriver.XST_FAILURE ≠ 0
    ∧ copyRun.ret = some 0
    ∧ copyRun.error_count = some 32
    ∧ ((0 : Int) = 0 ↔ ∃ c, c ≠ 0 ∧ copyRun.final.trace.filter Event.isCall
        = [Event.XAxiDma_LookupConfig 0 c, Event.XAxiDma_CfgInitialize c 0,
           launchRx 0, launchTx 0])
    ∧ (main rxFailDriver 4 2 zeroMem).ret = some 1 :=
  ⟨by decide, by decide, by decide,
    (C5_exit_status copyDriver 1 0 zeroMem (by decide)).1 0 (by decide),
    (C5_exit_status rxFailDriver 4 2 zeroMem (by decide)).2.2.2.1
      RX_BUFFER_BASE 128 Dir.XAXIDMA_DEVICE_TO_DMA 1 (by decide) (by decide)⟩

/-- C6 at concrete runs: the drivers whose lookup, initialisation, receive
launch and send launch fail. -/
theorem C6_witness :
    (Event.XAxiDma_LookupConfig 0 0 ∈ (main nullDriver 4 2 zeroMem).final.trace
      ∧ (main nullDriver 4 2 zeroMem).final.trace.countP Event.isLookup = 1)
    ∧ (Event.XAxiDma_CfgInitialize 1 1 ∈ (main initFailDriver 4 2 zeroMem).final.trace
      ∧ (main initFailDriver 4 2 zeroMem).final.trace
        = [Event.init_platform, Event.print msgStart, Event.print msgInit,
           Event.XAxiDma_LookupConfig 0 1, Event.XAxiDma_CfgInitialize 1 1,
           Event.print msgInitFailed])
    ∧ (launchRx 1 ∈ (main rxFailDriver 4 2 zeroMem).final.trace
      ∧ (main rxFailDriver 4 2 zeroMem).final.trace.countP Event.isLaunch = 1)
    ∧ (launchTx 1 ∈ (main txFailDriver 4 2 zeroMem).final.trace
      ∧ (main txFailDriver 4 2 zeroMem).final.trace.countP
          (Event.isLaunchOn Dir.XAXIDMA_DMA_TO_DEVICE) = 1) :=
  ⟨⟨by decide,
      ((C6_fatal_errors_abort nullDriver 4 2 zeroMem).1 0 (by decide)).2.1⟩,
    ⟨by decide,
      ((C6_fatal_errors_abort initFailDriver 4 2 zeroMem).2.1 1 1 (by decide)
        (by decide)).1⟩,
    ⟨by decide,
      ((C6_fatal_errors_abort rxFailDriver 4 2 zeroMem).2.2.1 RX_BUFFER_BASE 128 1
        (by decide) (by decide)).2.1⟩,
    ⟨by decide,
      ((C6_fatal_errors_abort txFailDriver 4 2 zeroMem).2.2.2.1 TX_BUFFER_BASE 128 1
        (by decide) (by decide)).2.1⟩⟩

/-- C8 at a concrete run: the run with the design's accelerator prints the
SUCCESS line. -/
theorem C8_witness :
    Event.print msgComplete ∈ invertRun.final.trace
    ∧ (∀ i, i < 32 → rxWord invertRun.final.mem i = not32 (txWord invertRun.final.mem i))
    ∧ Event.print msgSuccess ∈ invertRun.final.trace
    ∧ invertRun.final.trace.count (Event.print msgSuccess)
        + invertRun.final.trace.count (Event.print msgFailure) = 1 :=
  ⟨by decide, by decide,
    (C8_success_iff_all_inverted invertDriver 4 2 zeroMem (by decide)).2.1.mpr (by decide),
    (C8_success_iff_all_inverted invertDriver 4 2 zeroMem (by decide)).2.2.2.1⟩

/-- C9 at a concrete run: the run with the copying engine, whose TX buffer
holds `0, 1, ..., 31` at verification. -/
theorem C9_witness :
    Event.print msgComplete ∈ copyRun.final.trace
    ∧ (∀ i, i < 32 → rxWord copyRun.final.mem i = txWord copyRun.final.mem i)
    ∧ (∀ i, i < 32 → txWord copyRun.final.mem i = i)
    ∧ copyRun.final.trace.filter Event.isPrintf
        = (List.range 32).map (fun i => Event.xil_printf msgMismatch
            [i, i, i, 4294967295 - i])
    ∧ copyRun.error_count = some 32
    ∧ Event.print msgFailure ∈ copyRun.final.trace
    ∧ Event.print msgSuccess ∉ copyRun.final.trace :=
  ⟨by decide, by decide, by decide,
    (C9_copy_engine_detected copyDriver 1 0 zeroMem (by decide) (by decide)).2.2.2.2.2.2.2
      (by decide),
    (C9_copy_engine_detected copyDriver 1 0 zeroMem (by decide) (by decide)).2.2.2.2.1,
    (C9_copy_engine_detected copyDriver 1 0 zeroMem (by decide) (by decide)).2.2.2.2.2.1,
    (C9_copy_engine_detected copyDriver 1 0 zeroMem (by decide) (by decide)).2.2.2.2.2.2.1⟩

/-- C10 at a concrete run: the first flush of the run with the design's
accelerator comes after the 64 stores of the fill loop. -/
theorem C10_witness :
    invertRun.final.trace
      = List.take 72 invertRun.final.trace ++ flushTx :: List.drop 73 invertRun.final.trace
    ∧ (List.take 72 invertRun.final.trace).filter Event.isStore = fillEvents
    ∧ ∀ x ∈ List.drop 73 invertRun.final.trace, x.isStore = false :=
  ⟨by decide,
    (C10_fill_loop_postcondition invertDriver 4 2 zeroMem
      ({ drv := 0, mem := zeroMem, trace := [] } : State Nat)).2.2.2.2.2.2
      (List.take 72 invertRun.final.trace) flushTx (List.drop 73 invertRun.final.trace)
      (by decide) (Or.inl rfl)⟩

end AxiDmaTest
